import Mathlib

/-!
Shallow embedding of the USB descriptor decoding layer of the `cyme`
repository (`src/usb/descriptors.rs` and the bitmap-control rendering in
`src/lsusb/audio_dumps.rs`), together with theorems settling the frozen
claims about it.

Byte slices are modelled as `List Nat` (each element a byte value).
A Rust `Result<T, Error>` together with the possibility of a panic
(out-of-bounds index) is modelled by `DResult`:
`DResult.panics` is a Rust panic, `DResult.fails k m` is `Err(Error::new(k, m))`,
and `DResult.ok` is `Ok`.  A guarded Rust index `value[i]` whose bound was
established by a preceding length check is translated as `List.getD`;
an index whose bound is NOT established is translated through `List.get?`
with the `none` case mapped to `DResult.panics`.  The Rust checked `value.get(i)`
is `List.get? i` and `value.get(i..)` is `sliceFrom`.
-/

namespace Cyme

/-- Error kinds of the `Error` type of the repository; the descriptor decoders
only ever construct `ErrorKind::InvalidArg`. -/
inductive ErrorKind where
  | InvalidArg
deriving DecidableEq, Repr

/-- Outcome of running a Rust decoder: a panic, `Err(Error::new(kind, msg))`,
or `Ok`. -/
inductive DResult (α : Type) where
  | panics : DResult α
  | fails : ErrorKind → String → DResult α
  | ok : α → DResult α
deriving DecidableEq, Repr

/-- `Result::map` lifted over `DResult` (panics and errors propagate). -/
def dmap {α β : Type} (f : α → β) : DResult α → DResult β
  | DResult.panics => DResult.panics
  | DResult.fails k m => DResult.fails k m
  | DResult.ok a => DResult.ok (f a)

/-- Monadic sequencing of two decode steps (models `?` propagation). -/
def dbind {α β : Type} : DResult α → (α → DResult β) → DResult β
  | DResult.panics, _ => DResult.panics
  | DResult.fails k m, _ => DResult.fails k m
  | DResult.ok a, f => f a

/-- `u16::from_le_bytes([lo, hi])`. -/
def le16 (lo hi : Nat) : Nat := lo + 256 * hi

/-- `u32::from_le_bytes([b0, b1, b2, b3])`. -/
def le32 (b0 b1 b2 b3 : Nat) : Nat := b0 + 256 * b1 + 65536 * b2 + 16777216 * b3

/-- `u16::to_le_bytes`. -/
def u16ToLe (x : Nat) : List Nat := [x % 256, x / 256 % 256]

/-- `u32::to_le_bytes`. -/
def u32ToLe (x : Nat) : List Nat :=
  [x % 256, x / 256 % 256, x / 65536 % 256, x / 16777216 % 256]

/-- Rust `value.get(i..).map(|d| d.to_vec())`: `some` of the tail iff the start
index is within bounds (an in-bounds start on an exhausted slice yields
`some []`, as in Rust). -/
def sliceFrom (v : List Nat) (i : Nat) : Option (List Nat) :=
  if i ≤ v.length then some (v.drop i) else none

/-- Modelled from the spec: the `Version` value produced by BCD-version
decoding (`Version::from_bcd`) lives in the `usb` module of the repository, which
is not among the provided sources; the spec describes it only as "BCD-version
decoding" of a little-endian `u16`. -/
structure Version where
  major : Nat
  minor : Nat
  sub : Nat
deriving DecidableEq, Repr

/-- Modelled from the spec: `Version::from_bcd` splits the BCD `u16` into
major (high byte), minor (high nibble of low byte) and sub (low nibble). -/
def Version.from_bcd (b : Nat) : Version :=
  { major := b / 256, minor := b / 16 % 16, sub := b % 16 }

/-- Modelled from the spec: `u16::from(version)` re-packs the BCD fields. -/
def Version.toU16 (v : Version) : Nat := v.major * 256 + v.minor * 16 + v.sub

/-- `InterfaceAssociationDescriptor` of `descriptors.rs`. -/
structure InterfaceAssociationDescriptor where
  length : Nat
  descriptor_type : Nat
  first_interface : Nat
  interface_count : Nat
  function_class : Nat
  function_sub_class : Nat
  function_protocol : Nat
  function_string_index : Nat
  function_string : Option String
deriving DecidableEq, Repr

/-- `TryFrom<&[u8]> for InterfaceAssociationDescriptor`. -/
def interfaceAssociationDescriptor_tryFrom (value : List Nat) :
    DResult InterfaceAssociationDescriptor :=
  if value.length < 8 then
    DResult.fails ErrorKind.InvalidArg "Interface Association descriptor too short"
  else
    DResult.ok
      { length := value.getD 0 0
        descriptor_type := value.getD 1 0
        first_interface := value.getD 2 0
        interface_count := value.getD 3 0
        function_class := value.getD 4 0
        function_sub_class := value.getD 5 0
        function_protocol := value.getD 6 0
        function_string_index := value.getD 7 0
        function_string := none }

/-- `SsEndpointCompanionDescriptor` of `descriptors.rs`. -/
structure SsEndpointCompanionDescriptor where
  length : Nat
  descriptor_type : Nat
  max_burst : Nat
  attributes : Nat
deriving DecidableEq, Repr

/-- `TryFrom<&[u8]> for SsEndpointCompanionDescriptor`. -/
def ssEndpointCompanionDescriptor_tryFrom (value : List Nat) :
    DResult SsEndpointCompanionDescriptor :=
  if value.length < 6 then
    DResult.fails ErrorKind.InvalidArg "SS Endpoint Companion descriptor too short"
  else
    DResult.ok
      { length := value.getD 0 0
        descriptor_type := value.getD 1 0
        max_burst := value.getD 2 0
        attributes := value.getD 3 0 }

/-- `SecurityDescriptor` of `descriptors.rs`. -/
structure SecurityDescriptor where
  length : Nat
  descriptor_type : Nat
  total_length : Nat
  encryption_types : Nat
deriving DecidableEq, Repr

/-- `TryFrom<&[u8]> for SecurityDescriptor`. -/
def securityDescriptor_tryFrom (value : List Nat) : DResult SecurityDescriptor :=
  if value.length < 5 then
    DResult.fails ErrorKind.InvalidArg "Security descriptor too short"
  else
    DResult.ok
      { length := value.getD 0 0
        descriptor_type := value.getD 1 0
        total_length := le16 (value.getD 2 0) (value.getD 3 0)
        encryption_types := value.getD 4 0 }

/-- `EncryptionType` of `descriptors.rs`. -/
inductive EncryptionType where
  | Unsecure
  | Wired
  | Ccm1
  | Rsa1
  | Reserved
deriving DecidableEq, Repr

/-- `From<u8> for EncryptionType`. -/
def EncryptionType.fromU8 (b : Nat) : EncryptionType :=
  if b = 0x00 then EncryptionType.Unsecure
  else if b = 0x01 then EncryptionType.Wired
  else if b = 0x02 then EncryptionType.Ccm1
  else if b = 0x03 then EncryptionType.Rsa1
  else EncryptionType.Reserved

/-- `EncryptionDescriptor` of `descriptors.rs`. -/
structure EncryptionDescriptor where
  length : Nat
  descriptor_type : Nat
  encryption_type : EncryptionType
  encryption_value : Nat
  auth_key_index : Nat
deriving DecidableEq, Repr

/-- `TryFrom<&[u8]> for EncryptionDescriptor`. -/
def encryptionDescriptor_tryFrom (value : List Nat) : DResult EncryptionDescriptor :=
  if value.length < 5 then
    DResult.fails ErrorKind.InvalidArg "Encryption Type descriptor too short"
  else
    DResult.ok
      { length := value.getD 0 0
        descriptor_type := value.getD 1 0
        encryption_type := EncryptionType.fromU8 (value.getD 2 0)
        encryption_value := value.getD 3 0
        auth_key_index := value.getD 4 0 }

/-- `HidReportDescriptor` of `descriptors.rs` (wLength rather than bLength and
no sub-type). -/
structure HidReportDescriptor where
  descriptor_type : Nat
  length : Nat
  data : Option (List Nat)
deriving DecidableEq, Repr

/-- `TryFrom<&[u8]> for HidReportDescriptor`. -/
def hidReportDescriptor_tryFrom (value : List Nat) : DResult HidReportDescriptor :=
  if value.length < 3 then
    DResult.fails ErrorKind.InvalidArg "HID report descriptor too short"
  else if value.getD 0 0 ≠ 0x22 then
    DResult.fails ErrorKind.InvalidArg "HID report descriptor must have descriptor type 0x22"
  else
    DResult.ok
      { descriptor_type := value.getD 0 0
        length := le16 (value.getD 1 0) (value.getD 2 0)
        data := sliceFrom value 3 }

/-- `From<HidReportDescriptor> for Vec<u8>`. -/
def hidReportDescriptor_toVec (hd : HidReportDescriptor) : List Nat :=
  hd.descriptor_type :: u16ToLe hd.length ++
    (match hd.data with
     | some d => d
     | none => [])

/-- `GenericDescriptor` of `descriptors.rs`. -/
structure GenericDescriptor where
  length : Nat
  descriptor_type : Nat
  descriptor_subtype : Nat
  data : Option (List Nat)
deriving DecidableEq, Repr

/-- `TryFrom<&[u8]> for GenericDescriptor`. -/
def genericDescriptor_tryFrom (value : List Nat) : DResult GenericDescriptor :=
  if value.length < 3 then
    DResult.fails ErrorKind.InvalidArg "Generic descriptor too short"
  else if value.getD 0 0 > value.length then
    DResult.fails ErrorKind.InvalidArg
      "Generic descriptor reported length too long for data returned"
  else
    DResult.ok
      { length := value.getD 0 0
        descriptor_type := value.getD 1 0
        descriptor_subtype := value.getD 2 0
        data := sliceFrom value 3 }

/-- `From<GenericDescriptor> for Vec<u8>` (also `GenericDescriptor::to_vec`). -/
def GenericDescriptor.to_vec (gd : GenericDescriptor) : List Nat :=
  gd.length :: gd.descriptor_type :: gd.descriptor_subtype ::
    (match gd.data with
     | some d => d
     | none => [])

/-- `HidDescriptor` of `descriptors.rs`. -/
structure HidDescriptor where
  length : Nat
  descriptor_type : Nat
  bcd_hid : Version
  country_code : Nat
  descriptors : List HidReportDescriptor
deriving DecidableEq, Repr

/-- The `for _ in 0..num_descriptors` loop of `HidDescriptor::try_from`:
drains one report descriptor per iteration from `descriptors_vec`.
The source guards only `descriptors_vec.len() < 2` before reading
`descriptors_vec[1]` and `descriptors_vec[2]`, so index 2 may be out of
bounds: that read is modelled through `List.get?` with `DResult.panics`
for the out-of-bounds case. -/
def hidDescriptorReports : Nat → List Nat → List HidReportDescriptor →
    DResult (List HidReportDescriptor)
  | 0, _, acc => DResult.ok acc
  | n + 1, descriptors_vec, acc =>
    if descriptors_vec.length < 2 then
      DResult.fails ErrorKind.InvalidArg "HID report descriptor too short"
    else
      match descriptors_vec.get? 2 with
      | none => DResult.panics
      | some b2 =>
        if le16 (descriptors_vec.getD 1 0) b2 > descriptors_vec.length then
          DResult.fails ErrorKind.InvalidArg
            "HID report descriptor too long for available data!"
        else
          match hidReportDescriptor_tryFrom
              (descriptors_vec.take (le16 (descriptors_vec.getD 1 0) b2)) with
          | DResult.panics => DResult.panics
          | DResult.fails k m => DResult.fails k m
          | DResult.ok d =>
            hidDescriptorReports n
              (descriptors_vec.drop (le16 (descriptors_vec.getD 1 0) b2)) (acc ++ [d])

/-- `TryFrom<&[u8]> for HidDescriptor`. -/
def hidDescriptor_tryFrom (value : List Nat) : DResult HidDescriptor :=
  if value.length < 6 then
    DResult.fails ErrorKind.InvalidArg "HID descriptor too short"
  else
    match hidDescriptorReports (value.getD 5 0) (value.drop 6) [] with
    | DResult.panics => DResult.panics
    | DResult.fails k m => DResult.fails k m
    | DResult.ok descriptors =>
      DResult.ok
        { length := value.getD 0 0
          descriptor_type := value.getD 1 0
          bcd_hid := Version.from_bcd (le16 (value.getD 2 0) (value.getD 3 0))
          country_code := value.getD 4 0
          descriptors := descriptors }

/-- `From<HidDescriptor> for Vec<u8>`. -/
def hidDescriptor_toVec (hd : HidDescriptor) : List Nat :=
  hd.length :: hd.descriptor_type :: u16ToLe hd.bcd_hid.toU16 ++
    hd.country_code :: (hd.descriptors.map hidReportDescriptor_toVec).flatten

/-- `CcidDescriptor` of `descriptors.rs`. -/
structure CcidDescriptor where
  length : Nat
  descriptor_type : Nat
  version : Version
  max_slot_index : Nat
  voltage_support : Nat
  protocols : Nat
  default_clock : Nat
  max_clock : Nat
  num_clock_supported : Nat
  data_rate : Nat
  max_data_rate : Nat
  num_data_rates_supp : Nat
  max_ifsd : Nat
  sync_protocols : Nat
  mechanical : Nat
  features : Nat
  max_ccid_msg_len : Nat
  class_get_response : Nat
  class_envelope : Nat
  lcd_layout : Nat × Nat
  pin_support : Nat
  max_ccid_busy_slots : Nat
deriving DecidableEq, Repr

/-- `TryFrom<&[u8]> for CcidDescriptor`. -/
def ccidDescriptor_tryFrom (value : List Nat) : DResult CcidDescriptor :=
  if value.length < 54 then
    DResult.fails ErrorKind.InvalidArg "CCID descriptor too short"
  else
    DResult.ok
      { length := value.getD 0 0
        descriptor_type := value.getD 1 0
        version := Version.from_bcd (le16 (value.getD 2 0) (value.getD 3 0))
        max_slot_index := value.getD 4 0
        voltage_support := value.getD 5 0
        protocols := le32 (value.getD 6 0) (value.getD 7 0) (value.getD 8 0) (value.getD 9 0)
        default_clock :=
          le32 (value.getD 10 0) (value.getD 11 0) (value.getD 12 0) (value.getD 13 0)
        max_clock :=
          le32 (value.getD 14 0) (value.getD 15 0) (value.getD 16 0) (value.getD 17 0)
        num_clock_supported := value.getD 18 0
        data_rate :=
          le32 (value.getD 19 0) (value.getD 20 0) (value.getD 21 0) (value.getD 22 0)
        max_data_rate :=
          le32 (value.getD 23 0) (value.getD 24 0) (value.getD 25 0) (value.getD 26 0)
        num_data_rates_supp := value.getD 27 0
        max_ifsd :=
          le32 (value.getD 28 0) (value.getD 29 0) (value.getD 30 0) (value.getD 31 0)
        sync_protocols :=
          le32 (value.getD 32 0) (value.getD 33 0) (value.getD 34 0) (value.getD 35 0)
        mechanical :=
          le32 (value.getD 36 0) (value.getD 37 0) (value.getD 38 0) (value.getD 39 0)
        features :=
          le32 (value.getD 40 0) (value.getD 41 0) (value.getD 42 0) (value.getD 43 0)
        max_ccid_msg_len :=
          le32 (value.getD 44 0) (value.getD 45 0) (value.getD 46 0) (value.getD 47 0)
        class_get_response := value.getD 48 0
        class_envelope := value.getD 49 0
        lcd_layout := (value.getD 50 0, value.getD 51 0)
        pin_support := value.getD 52 0
        max_ccid_busy_slots := value.getD 53 0 }

/-- `From<CcidDescriptor> for Vec<u8>`. -/
def ccidDescriptor_toVec (cd : CcidDescriptor) : List Nat :=
  cd.length :: cd.descriptor_type :: u16ToLe cd.version.toU16 ++
    cd.max_slot_index :: cd.voltage_support ::
    (u32ToLe cd.protocols ++ u32ToLe cd.default_clock ++ u32ToLe cd.max_clock ++
      cd.num_clock_supported ::
      (u32ToLe cd.data_rate ++ u32ToLe cd.max_data_rate ++
        cd.num_data_rates_supp ::
        (u32ToLe cd.max_ifsd ++ u32ToLe cd.sync_protocols ++ u32ToLe cd.mechanical ++
          u32ToLe cd.features ++ u32ToLe cd.max_ccid_msg_len ++
          [cd.class_get_response, cd.class_envelope, cd.lcd_layout.1, cd.lcd_layout.2,
           cd.pin_support, cd.max_ccid_busy_slots])))

/-- `PrinterReportDescriptor` of `descriptors.rs`. -/
structure PrinterReportDescriptor where
  descriptor_type : Nat
  length : Nat
  capabilities : Nat
  versions_supported : Nat
  uuid_string_index : Nat
  uuid_string : Option String
  data : Option (List Nat)
deriving DecidableEq, Repr

/-- `TryFrom<&[u8]> for PrinterReportDescriptor`. -/
def printerReportDescriptor_tryFrom (value : List Nat) :
    DResult PrinterReportDescriptor :=
  if value.length < 6 then
    DResult.fails ErrorKind.InvalidArg "Printer report descriptor too short"
  else
    DResult.ok
      { descriptor_type := value.getD 0 0
        length := value.getD 1 0
        capabilities := le16 (value.getD 2 0) (value.getD 3 0)
        versions_supported := value.getD 4 0
        uuid_string_index := value.getD 5 0
        uuid_string := none
        data := sliceFrom value 6 }

/-- `From<PrinterReportDescriptor> for Vec<u8>`: emits only the six header
bytes; the `data` field is not re-emitted by the source. -/
def printerReportDescriptor_toVec (prd : PrinterReportDescriptor) : List Nat :=
  prd.descriptor_type :: prd.length :: u16ToLe prd.capabilities ++
    [prd.versions_supported, prd.uuid_string_index]

/-- `PrinterDescriptor` of `descriptors.rs`. -/
structure PrinterDescriptor where
  length : Nat
  descriptor_type : Nat
  release_number : Nat
  descriptors : List PrinterReportDescriptor
deriving DecidableEq, Repr

/-- The `for _ in 0..num_descriptors` loop of `PrinterDescriptor::try_from`.
A report claiming more bytes than remain `break`s out of the loop (keeping
what was decoded so far) rather than failing. -/
def printerDescriptorReports : Nat → List Nat → List PrinterReportDescriptor →
    DResult (List PrinterReportDescriptor)
  | 0, _, acc => DResult.ok acc
  | n + 1, descriptors_vec, acc =>
    if descriptors_vec.length < 2 then
      DResult.fails ErrorKind.InvalidArg "Printer report descriptor too short"
    else
      let len := descriptors_vec.getD 1 0 + 2
      if descriptors_vec.length < len then
        DResult.ok acc
      else
        match printerReportDescriptor_tryFrom (descriptors_vec.take len) with
        | DResult.panics => DResult.panics
        | DResult.fails k m => DResult.fails k m
        | DResult.ok d =>
          printerDescriptorReports n (descriptors_vec.drop len) (acc ++ [d])

/-- `TryFrom<&[u8]> for PrinterDescriptor`.  The source guards only
`value.len() < 3` before reading `value[3]`, so that read may be out of
bounds; it is modelled through `List.get?` with `DResult.panics`. -/
def printerDescriptor_tryFrom (value : List Nat) : DResult PrinterDescriptor :=
  if value.length < 3 then
    DResult.fails ErrorKind.InvalidArg "Printer descriptor too short"
  else
    match value.get? 3 with
    | none => DResult.panics
    | some num_descriptors =>
      match printerDescriptorReports num_descriptors (value.drop 4) [] with
      | DResult.panics => DResult.panics
      | DResult.fails k m => DResult.fails k m
      | DResult.ok descriptors =>
        DResult.ok
          { length := value.getD 0 0
            descriptor_type := value.getD 1 0
            release_number := value.getD 2 0
            descriptors := descriptors }

/-- `From<PrinterDescriptor> for Vec<u8>`. -/
def printerDescriptor_toVec (pd : PrinterDescriptor) : List Nat :=
  pd.length :: pd.descriptor_type :: pd.release_number ::
    (pd.descriptors.map printerReportDescriptor_toVec).flatten

/-- `CdcType` of `descriptors.rs`. -/
inductive CdcType where
  | Header
  | CallManagement
  | AbstractControlManagement
  | DirectLineManagement
  | TelephoneRinger
  | TelephoneCall
  | Union
  | CountrySelection
  | TelephoneOperationalModes
  | UsbTerminal
  | NetworkChannel
  | ProtocolUnit
  | ExtensionUnit
  | MultiChannel
  | CapiControl
  | EthernetNetworking
  | AtmNetworking
  | WirelessHandsetControlModel
  | MobileDirectLineModelFunctional
  | MobileDirectLineModelDetail
  | DeviceManagement
  | Obex
  | CommandSet
  | CommandSetDetail
  | TelephoneControlModel
  | ObexCommandSet
  | Ncm
  | Mbim
  | MbimExtended
  | Unknown
deriving DecidableEq, Repr

/-- `From<u8> for CdcType`. -/
def CdcType.fromU8 (b : Nat) : CdcType :=
  if b = 0x00 then CdcType.Header
  else if b = 0x01 then CdcType.CallManagement
  else if b = 0x02 then CdcType.AbstractControlManagement
  else if b = 0x03 then CdcType.DirectLineManagement
  else if b = 0x04 then CdcType.TelephoneRinger
  else if b = 0x05 then CdcType.TelephoneCall
  else if b = 0x06 then CdcType.Union
  else if b = 0x07 then CdcType.CountrySelection
  else if b = 0x08 then CdcType.TelephoneOperationalModes
  else if b = 0x09 then CdcType.UsbTerminal
  else if b = 0x0a then CdcType.NetworkChannel
  else if b = 0x0b then CdcType.ProtocolUnit
  else if b = 0x0c then CdcType.ExtensionUnit
  else if b = 0x0d then CdcType.MultiChannel
  else if b = 0x0e then CdcType.CapiControl
  else if b = 0x0f then CdcType.EthernetNetworking
  else if b = 0x10 then CdcType.AtmNetworking
  else if b = 0x11 then CdcType.WirelessHandsetControlModel
  else if b = 0x12 then CdcType.MobileDirectLineModelFunctional
  else if b = 0x13 then CdcType.MobileDirectLineModelDetail
  else if b = 0x14 then CdcType.DeviceManagement
  else if b = 0x15 then CdcType.Obex
  else if b = 0x16 then CdcType.CommandSet
  else if b = 0x17 then CdcType.CommandSetDetail
  else if b = 0x18 then CdcType.TelephoneControlModel
  else if b = 0x19 then CdcType.ObexCommandSet
  else if b = 0x1a then CdcType.Ncm
  else if b = 0x1b then CdcType.Mbim
  else if b = 0x1c then CdcType.MbimExtended
  else CdcType.Unknown

/-- `CdcType as u8`: the explicit wire discriminants of the Rust enum. -/
def CdcType.toU8 : CdcType → Nat
  | CdcType.Header => 0x00
  | CdcType.CallManagement => 0x01
  | CdcType.AbstractControlManagement => 0x02
  | CdcType.DirectLineManagement => 0x03
  | CdcType.TelephoneRinger => 0x04
  | CdcType.TelephoneCall => 0x05
  | CdcType.Union => 0x06
  | CdcType.CountrySelection => 0x07
  | CdcType.TelephoneOperationalModes => 0x08
  | CdcType.UsbTerminal => 0x09
  | CdcType.NetworkChannel => 0x0a
  | CdcType.ProtocolUnit => 0x0b
  | CdcType.ExtensionUnit => 0x0c
  | CdcType.MultiChannel => 0x0d
  | CdcType.CapiControl => 0x0e
  | CdcType.EthernetNetworking => 0x0f
  | CdcType.AtmNetworking => 0x10
  | CdcType.WirelessHandsetControlModel => 0x11
  | CdcType.MobileDirectLineModelFunctional => 0x12
  | CdcType.MobileDirectLineModelDetail => 0x13
  | CdcType.DeviceManagement => 0x14
  | CdcType.Obex => 0x15
  | CdcType.CommandSet => 0x16
  | CdcType.CommandSetDetail => 0x17
  | CdcType.TelephoneControlModel => 0x18
  | CdcType.ObexCommandSet => 0x19
  | CdcType.Ncm => 0x1a
  | CdcType.Mbim => 0x1b
  | CdcType.MbimExtended => 0x1c
  | CdcType.Unknown => 0xff

/-- `CommunicationDescriptor` of `descriptors.rs`. -/
structure CommunicationDescriptor where
  length : Nat
  descriptor_type : Nat
  communication_type : CdcType
  string_index : Option Nat
  string : Option String
  data : List Nat
deriving DecidableEq, Repr

/-- `TryFrom<&[u8]> for CommunicationDescriptor`.  The position of the
embedded string index depends on the CDC type. -/
def communicationDescriptor_tryFrom (value : List Nat) :
    DResult CommunicationDescriptor :=
  if value.length < 4 then
    DResult.fails ErrorKind.InvalidArg "Communication descriptor too short"
  else if value.getD 0 0 > value.length then
    DResult.fails ErrorKind.InvalidArg
      "Communication descriptor reported length too long for buffer"
  else
    DResult.ok
      { length := value.getD 0 0
        descriptor_type := value.getD 1 0
        communication_type := CdcType.fromU8 (value.getD 2 0)
        string_index :=
          match CdcType.fromU8 (value.getD 2 0) with
          | CdcType.EthernetNetworking => value.get? 3
          | CdcType.CountrySelection => value.get? 3
          | CdcType.NetworkChannel => value.get? 4
          | CdcType.CommandSet => value.get? 5
          | _ => none
        string := none
        data := value.drop 3 }

/-- `From<CommunicationDescriptor> for Vec<u8>`. -/
def communicationDescriptor_toVec (cd : CommunicationDescriptor) : List Nat :=
  cd.length :: cd.descriptor_type :: cd.communication_type.toU8 :: cd.data

/-- `UvcInterface` of `descriptors.rs`. -/
inductive UvcInterface where
  | Undefined
  | Header
  | InputTerminal
  | OutputTerminal
  | SelectorUnit
  | ProcessingUnit
  | ExtensionUnit
  | EncodingUnit
deriving DecidableEq, Repr

/-- `From<u8> for UvcInterface`. -/
def UvcInterface.fromU8 (b : Nat) : UvcInterface :=
  if b = 0x00 then UvcInterface.Undefined
  else if b = 0x01 then UvcInterface.Header
  else if b = 0x02 then UvcInterface.InputTerminal
  else if b = 0x03 then UvcInterface.OutputTerminal
  else if b = 0x04 then UvcInterface.SelectorUnit
  else if b = 0x05 then UvcInterface.ProcessingUnit
  else if b = 0x06 then UvcInterface.ExtensionUnit
  else if b = 0x07 then UvcInterface.EncodingUnit
  else UvcInterface.Undefined

/-- `UvcDescriptor` of `descriptors.rs`. -/
structure UvcDescriptor where
  length : Nat
  descriptor_type : Nat
  descriptor_subtype : Nat
  string_index : Option Nat
  string : Option String
  data : List Nat
deriving DecidableEq, Repr

/-- `TryFrom<&[u8]> for UvcDescriptor`: the string-index position is computed
per subtype, for some subtypes from preceding variable-length pin lists. -/
def uvcDescriptor_tryFrom (value : List Nat) : DResult UvcDescriptor :=
  if value.length < 4 then
    DResult.fails ErrorKind.InvalidArg "Video Control descriptor too short"
  else if value.getD 0 0 > value.length then
    DResult.fails ErrorKind.InvalidArg
      "Video Control descriptor reported length too long for buffer"
  else
    DResult.ok
      { length := value.getD 0 0
        descriptor_type := value.getD 1 0
        descriptor_subtype := value.getD 2 0
        string_index :=
          match UvcInterface.fromU8 (value.getD 2 0) with
          | UvcInterface.InputTerminal => value.get? 7
          | UvcInterface.OutputTerminal => value.get? 8
          | UvcInterface.SelectorUnit =>
            match value.get? 4 with
            | some p => value.get? (5 + p)
            | none => none
          | UvcInterface.ProcessingUnit =>
            match value.get? 7 with
            | some n => value.get? (8 + n)
            | none => none
          | UvcInterface.ExtensionUnit =>
            match value.get? 21 with
            | some p =>
              match value.get? (22 + p) with
              | some n => value.get? (23 + n + p)
              | none => none
            | none => none
          | UvcInterface.EncodingUnit => value.get? 5
          | _ => none
        string := none
        data := value.drop 3 }

/-- `From<UvcDescriptor> for Vec<u8>`. -/
def uvcDescriptor_toVec (vcd : UvcDescriptor) : List Nat :=
  vcd.length :: vcd.descriptor_type :: vcd.descriptor_subtype :: vcd.data

/-- `MidiInterface` of `descriptors.rs`. -/
inductive MidiInterface where
  | Undefined
  | Header
  | InputJack
  | OutputJack
  | Element
deriving DecidableEq, Repr

/-- `From<u8> for MidiInterface`. -/
def MidiInterface.fromU8 (b : Nat) : MidiInterface :=
  if b = 0x00 then MidiInterface.Undefined
  else if b = 0x01 then MidiInterface.Header
  else if b = 0x02 then MidiInterface.InputJack
  else if b = 0x03 then MidiInterface.OutputJack
  else if b = 0x04 then MidiInterface.Element
  else MidiInterface.Undefined

/-- `MidiInterface as u8`. -/
def MidiInterface.toU8 : MidiInterface → Nat
  | MidiInterface.Undefined => 0x00
  | MidiInterface.Header => 0x01
  | MidiInterface.InputJack => 0x02
  | MidiInterface.OutputJack => 0x03
  | MidiInterface.Element => 0x04

/-- `MidiDescriptor` of `descriptors.rs`. -/
structure MidiDescriptor where
  length : Nat
  descriptor_type : Nat
  midi_type : MidiInterface
  string_index : Option Nat
  string : Option String
  data : List Nat
deriving DecidableEq, Repr

/-- `TryFrom<&[u8]> for MidiDescriptor`.  For `OutputJack` the source maps the
byte at index 5 through the `u8` expression `6 + *v * 2`, wrapping modulo 256
(release-build `u8` arithmetic); for `Element` three chained variable-length
regions are walked with `usize` arithmetic and checked `get`s. -/
def midiDescriptor_tryFrom (value : List Nat) : DResult MidiDescriptor :=
  if value.length < 4 then
    DResult.fails ErrorKind.InvalidArg "MidiDescriptor descriptor too short"
  else if value.getD 0 0 > value.length then
    DResult.fails ErrorKind.InvalidArg
      "MidiDescriptor descriptor reported length too long for buffer"
  else
    DResult.ok
      { length := value.getD 0 0
        descriptor_type := value.getD 1 0
        midi_type := MidiInterface.fromU8 (value.getD 2 0)
        string_index :=
          match MidiInterface.fromU8 (value.getD 2 0) with
          | MidiInterface.InputJack => value.get? 5
          | MidiInterface.OutputJack =>
            match value.get? 5 with
            | some v => some ((6 + v * 2) % 256)
            | none => none
          | MidiInterface.Element =>
            match value.get? 4 with
            | some j =>
              match value.get? ((5 + j * 2) + 3) with
              | some capsize => value.get? (9 + 2 * j + capsize)
              | none => none
            | none => none
          | _ => none
        string := none
        data := value.drop 3 }

/-- `From<MidiDescriptor> for Vec<u8>`. -/
def midiDescriptor_toVec (md : MidiDescriptor) : List Nat :=
  md.length :: md.descriptor_type :: md.midi_type.toU8 :: md.data

/-- Modelled from the spec: `ClassCode` lives in the `usb` module of the
repository, which is not among the provided sources.  The variants matched by
`ClassDescriptor::update_with_class_context` are taken verbatim from that
match (`HID`, `SmartCart`, `Printer`, `CDCCommunications`, `CDCData`,
`Audio`, `Video`); the dispatch table in §4.2 of the spec lists no further classes
with special handling, so the remaining USB class codes are represented by a
few representative extra variants that all fall to the `Generic` arm. -/
inductive ClassCode where
  | HID
  | SmartCart
  | Printer
  | CDCCommunications
  | CDCData
  | Audio
  | Video
  | Hub
  | MassStorage
  | Vendor
deriving DecidableEq, Repr

/-- `ClassCodeTriplet`: the `(class, subclass, protocol)` triplet attached to
an enclosing interface. -/
abbrev ClassCodeTriplet : Type := ClassCode × Nat × Nat

/-- `ClassDescriptor` of `descriptors.rs`. -/
inductive ClassDescriptor where
  | Hid : HidDescriptor → ClassDescriptor
  | Communication : CommunicationDescriptor → ClassDescriptor
  | Ccid : CcidDescriptor → ClassDescriptor
  | Printer : PrinterDescriptor → ClassDescriptor
  | Midi : MidiDescriptor → Nat → ClassDescriptor
  | Video : UvcDescriptor → Nat → ClassDescriptor
  | Generic : Option ClassCodeTriplet → GenericDescriptor → ClassDescriptor
deriving DecidableEq, Repr

/-- `TryFrom<&[u8]> for ClassDescriptor`: always lands in the `Generic`
state with no class context. -/
def classDescriptor_tryFrom (value : List Nat) : DResult ClassDescriptor :=
  if value.length < 3 then
    DResult.fails ErrorKind.InvalidArg "Class descriptor too short"
  else
    dmap (ClassDescriptor.Generic none) (genericDescriptor_tryFrom value)

/-- `From<ClassDescriptor> for Vec<u8>`. -/
def classDescriptor_toVec : ClassDescriptor → List Nat
  | ClassDescriptor.Generic _ gd => gd.to_vec
  | ClassDescriptor.Hid hd => hidDescriptor_toVec hd
  | ClassDescriptor.Ccid cd => ccidDescriptor_toVec cd
  | ClassDescriptor.Printer pd => printerDescriptor_toVec pd
  | ClassDescriptor.Communication cd => communicationDescriptor_toVec cd
  | ClassDescriptor.Midi md _ => midiDescriptor_toVec md
  | ClassDescriptor.Video vd _ => uvcDescriptor_toVec vd

/-- `ClassDescriptor::update_with_class_context`: in-place mutation is
modelled by returning the new value.  Only a descriptor in the `Generic`
state is specialized; the arms are tried in the order of the Rust match. -/
def ClassDescriptor.update_with_class_context (cd : ClassDescriptor)
    (triplet : ClassCodeTriplet) : DResult ClassDescriptor :=
  match cd with
  | ClassDescriptor.Generic _ gd =>
    let c := triplet.1
    let s := triplet.2.1
    let p := triplet.2.2
    if c = ClassCode.HID then
      dmap ClassDescriptor.Hid (hidDescriptor_tryFrom gd.to_vec)
    else if c = ClassCode.SmartCart then
      dmap ClassDescriptor.Ccid (ccidDescriptor_tryFrom gd.to_vec)
    else if c = ClassCode.Printer then
      dmap ClassDescriptor.Printer (printerDescriptor_tryFrom gd.to_vec)
    else if c = ClassCode.CDCCommunications ∨ c = ClassCode.CDCData then
      dmap ClassDescriptor.Communication (communicationDescriptor_tryFrom gd.to_vec)
    else if c = ClassCode.Audio ∧ s = 3 then
      dmap (fun md => ClassDescriptor.Midi md p) (midiDescriptor_tryFrom gd.to_vec)
    else if c = ClassCode.Video ∧ s = 1 then
      dmap (fun vd => ClassDescriptor.Video vd p) (uvcDescriptor_tryFrom gd.to_vec)
    else
      DResult.ok (ClassDescriptor.Generic (some triplet) gd)
  | other => DResult.ok other

/-- `true` exactly on the `Generic` state. -/
def ClassDescriptor.isGenericState : ClassDescriptor → Bool
  | ClassDescriptor.Generic _ _ => true
  | _ => false

/-- `DescriptorType` of `descriptors.rs`.  The `String::from_utf8_lossy`
conversion of the `String` variant is abstracted: the variant carries the
raw bytes the lossy UTF-8 conversion reads (no claim inspects the text). -/
inductive DescriptorType where
  | Device : ClassDescriptor → DescriptorType
  | Config : ClassDescriptor → DescriptorType
  | StringDesc : List Nat → DescriptorType
  | Interface : ClassDescriptor → DescriptorType
  | Endpoint : ClassDescriptor → DescriptorType
  | DeviceQualifier : DescriptorType
  | OtherSpeedConfiguration : DescriptorType
  | InterfacePower : DescriptorType
  | Otg : DescriptorType
  | DebugDesc : DescriptorType
  | InterfaceAssociation : InterfaceAssociationDescriptor → DescriptorType
  | Security : SecurityDescriptor → DescriptorType
  | Key : DescriptorType
  | Encrypted : EncryptionDescriptor → DescriptorType
  | Bos : DescriptorType
  | DeviceCapability : DescriptorType
  | WirelessEndpointCompanion : DescriptorType
  | WireAdaptor : DescriptorType
  | Report : HidReportDescriptor → DescriptorType
  | Physical : DescriptorType
  | Pipe : DescriptorType
  | Hub : DescriptorType
  | SuperSpeedHub : DescriptorType
  | SsEndpointCompanion : SsEndpointCompanionDescriptor → DescriptorType
  | SsIsocEndpointCompanion : DescriptorType
  | Unknown : List Nat → DescriptorType
  | Junk : List Nat → DescriptorType
deriving DecidableEq, Repr

/-- `TryFrom<&[u8]> for DescriptorType`: the 2-byte minimum check, then the
junk-length check, then the dispatch on `v[1]`. -/
def descriptorType_tryFrom (v : List Nat) : DResult DescriptorType :=
  if v.length < 2 then
    DResult.fails ErrorKind.InvalidArg
      "Descriptor type too short, must be at least 2 bytes"
  else if v.getD 0 0 < 2 then
    DResult.ok (DescriptorType.Junk v)
  else
    if v.getD 1 0 = 0x01 then dmap DescriptorType.Device (classDescriptor_tryFrom v)
    else if v.getD 1 0 = 0x02 then dmap DescriptorType.Config (classDescriptor_tryFrom v)
    else if v.getD 1 0 = 0x03 then DResult.ok (DescriptorType.StringDesc v)
    else if v.getD 1 0 = 0x04 then dmap DescriptorType.Interface (classDescriptor_tryFrom v)
    else if v.getD 1 0 = 0x05 then dmap DescriptorType.Endpoint (classDescriptor_tryFrom v)
    else if v.getD 1 0 = 0x06 then DResult.ok DescriptorType.DeviceQualifier
    else if v.getD 1 0 = 0x07 then DResult.ok DescriptorType.OtherSpeedConfiguration
    else if v.getD 1 0 = 0x08 then DResult.ok DescriptorType.InterfacePower
    else if v.getD 1 0 = 0x09 then DResult.ok DescriptorType.Otg
    else if v.getD 1 0 = 0x0a then DResult.ok DescriptorType.DebugDesc
    else if v.getD 1 0 = 0x0b then
      dmap DescriptorType.InterfaceAssociation (interfaceAssociationDescriptor_tryFrom v)
    else if v.getD 1 0 = 0x0c then dmap DescriptorType.Security (securityDescriptor_tryFrom v)
    else if v.getD 1 0 = 0x0d then DResult.ok DescriptorType.Key
    else if v.getD 1 0 = 0x0e then dmap DescriptorType.Encrypted (encryptionDescriptor_tryFrom v)
    else if v.getD 1 0 = 0x0f then DResult.ok DescriptorType.Bos
    else if v.getD 1 0 = 0x10 then DResult.ok DescriptorType.DeviceCapability
    else if v.getD 1 0 = 0x11 then DResult.ok DescriptorType.WirelessEndpointCompanion
    else if v.getD 1 0 = 0x21 then DResult.ok DescriptorType.WireAdaptor
    else if v.getD 1 0 = 0x22 then dmap DescriptorType.Report (hidReportDescriptor_tryFrom v)
    else if v.getD 1 0 = 0x23 then DResult.ok DescriptorType.Physical
    else if v.getD 1 0 = 0x24 then DResult.ok DescriptorType.Pipe
    else if v.getD 1 0 = 0x29 then DResult.ok DescriptorType.Hub
    else if v.getD 1 0 = 0x2a then DResult.ok DescriptorType.SuperSpeedHub
    else if v.getD 1 0 = 0x30 then
      dmap DescriptorType.SsEndpointCompanion (ssEndpointCompanionDescriptor_tryFrom v)
    else if v.getD 1 0 = 0x31 then DResult.ok DescriptorType.SsIsocEndpointCompanion
    else DResult.ok (DescriptorType.Unknown v)

/-- `true` exactly on the four variants carrying a `ClassDescriptor`
(`Device`, `Config`, `Interface`, `Endpoint`). -/
def DescriptorType.carriesClass : DescriptorType → Bool
  | DescriptorType.Device _ => true
  | DescriptorType.Config _ => true
  | DescriptorType.Interface _ => true
  | DescriptorType.Endpoint _ => true
  | _ => false

/-- `DescriptorType::update_with_class_context`: delegates to the enclosed
`ClassDescriptor` for the four class-carrying variants, `Ok(())` (no change)
otherwise. -/
def DescriptorType.update_with_class_context (d : DescriptorType)
    (triplet : ClassCodeTriplet) : DResult DescriptorType :=
  match d with
  | DescriptorType.Device cd =>
    dmap DescriptorType.Device (cd.update_with_class_context triplet)
  | DescriptorType.Config cd =>
    dmap DescriptorType.Config (cd.update_with_class_context triplet)
  | DescriptorType.Interface cd =>
    dmap DescriptorType.Interface (cd.update_with_class_context triplet)
  | DescriptorType.Endpoint cd =>
    dmap DescriptorType.Endpoint (cd.update_with_class_context triplet)
  | other => DResult.ok other

/-- `UacInterface` of `descriptors.rs`: UAC interface types based on
`bDescriptorSubtype`. -/
inductive UacInterface where
  | Undefined
  | Header
  | InputTerminal
  | OutputTerminal
  | ExtendedTerminal
  | MixerUnit
  | SelectorUnit
  | FeatureUnit
  | EffectUnit
  | ProcessingUnit
  | ExtensionUnit
  | ClockSource
  | ClockSelector
  | ClockMultiplier
  | SampleRateConverter
  | Connectors
  | PowerDomain
deriving DecidableEq, Repr

/-- `From<u8> for UacInterface`. -/
def UacInterface.fromU8 (b : Nat) : UacInterface :=
  if b = 0x00 then UacInterface.Undefined
  else if b = 0x01 then UacInterface.Header
  else if b = 0x02 then UacInterface.InputTerminal
  else if b = 0x03 then UacInterface.OutputTerminal
  else if b = 0x04 then UacInterface.ExtendedTerminal
  else if b = 0x05 then UacInterface.MixerUnit
  else if b = 0x06 then UacInterface.SelectorUnit
  else if b = 0x07 then UacInterface.FeatureUnit
  else if b = 0x08 then UacInterface.EffectUnit
  else if b = 0x09 then UacInterface.ProcessingUnit
  else if b = 0x0a then UacInterface.ExtensionUnit
  else if b = 0x0b then UacInterface.ClockSource
  else if b = 0x0c then UacInterface.ClockSelector
  else if b = 0x0d then UacInterface.ClockMultiplier
  else if b = 0x0e then UacInterface.SampleRateConverter
  else if b = 0x0f then UacInterface.Connectors
  else if b = 0x10 then UacInterface.PowerDomain
  else UacInterface.Undefined

/-- `UacInterface::get_uac_subtype`: the protocol-dependent remap of the
AudioControl `bDescriptorSubtype` byte (UAC1 and UAC2 remap some codes; any
other protocol, and any unremapped code, falls through to `From<u8>`). -/
def UacInterface.get_uac_subtype (subtype protocol : Nat) : UacInterface :=
  if protocol = 0x00 then
    if subtype = 0x04 then UacInterface.MixerUnit
    else if subtype = 0x05 then UacInterface.SelectorUnit
    else if subtype = 0x06 then UacInterface.FeatureUnit
    else if subtype = 0x07 then UacInterface.ProcessingUnit
    else if subtype = 0x08 then UacInterface.ExtensionUnit
    else UacInterface.fromU8 subtype
  else if protocol = 0x20 then
    if subtype = 0x04 then UacInterface.MixerUnit
    else if subtype = 0x05 then UacInterface.SelectorUnit
    else if subtype = 0x06 then UacInterface.FeatureUnit
    else if subtype = 0x07 then UacInterface.EffectUnit
    else if subtype = 0x08 then UacInterface.ProcessingUnit
    else if subtype = 0x09 then UacInterface.ExtensionUnit
    else if subtype = 0x0a then UacInterface.ClockSource
    else if subtype = 0x0b then UacInterface.ClockSelector
    else if subtype = 0x0c then UacInterface.ClockMultiplier
    else if subtype = 0x0d then UacInterface.SampleRateConverter
    else UacInterface.fromU8 subtype
  else UacInterface.fromU8 subtype

/-- `UacProtocol` of `descriptors.rs`. -/
inductive UacProtocol where
  | Uac1
  | Uac2
  | Uac3
  | Unknown
deriving DecidableEq, Repr

/-- `From<u8> for UacProtocol`. -/
def UacProtocol.fromU8 (b : Nat) : UacProtocol :=
  if b = 0x00 then UacProtocol.Uac1
  else if b = 0x20 then UacProtocol.Uac2
  else if b = 0x30 then UacProtocol.Uac3
  else UacProtocol.Unknown

/-- `AudioHeader1` of `descriptors.rs` (UAC1 header). -/
structure AudioHeader1 where
  version : Version
  total_length : Nat
  collection_bytes : Nat
  interfaces : List Nat
deriving DecidableEq, Repr

/-- `TryFrom<&[u8]> for AudioHeader1`. -/
def audioHeader1_tryFrom (value : List Nat) : DResult AudioHeader1 :=
  if value.length < 6 then
    DResult.fails ErrorKind.InvalidArg "Audio Header 1 descriptor too short"
  else
    DResult.ok
      { version := Version.from_bcd (le16 (value.getD 0 0) (value.getD 1 0))
        total_length := le16 (value.getD 2 0) (value.getD 3 0)
        collection_bytes := value.getD 4 0
        interfaces := value.drop 5 }

/-- `AudioHeader2` of `descriptors.rs` (UAC2 header). -/
structure AudioHeader2 where
  version : Version
  category : Nat
  total_length : Nat
  controls : Nat
deriving DecidableEq, Repr

/-- `TryFrom<&[u8]> for AudioHeader2`. -/
def audioHeader2_tryFrom (value : List Nat) : DResult AudioHeader2 :=
  if value.length < 6 then
    DResult.fails ErrorKind.InvalidArg "Audio Header 2 descriptor too short"
  else
    DResult.ok
      { version := Version.from_bcd (le16 (value.getD 0 0) (value.getD 1 0))
        category := value.getD 2 0
        total_length := le16 (value.getD 3 0) (value.getD 4 0)
        controls := value.getD 5 0 }

/-- `AudioHeader3` of `descriptors.rs` (UAC3 header). -/
structure AudioHeader3 where
  category : Nat
  total_length : Nat
  controls : Nat
deriving DecidableEq, Repr

/-- `TryFrom<&[u8]> for AudioHeader3`. -/
def audioHeader3_tryFrom (value : List Nat) : DResult AudioHeader3 :=
  if value.length < 7 then
    DResult.fails ErrorKind.InvalidArg "Audio Header 3 descriptor too short"
  else
    DResult.ok
      { category := value.getD 0 0
        total_length := le16 (value.getD 1 0) (value.getD 2 0)
        controls :=
          le32 (value.getD 3 0) (value.getD 4 0) (value.getD 5 0) (value.getD 6 0) }

/-- `UacInterfaceDescriptor` of `descriptors.rs`: this version of the enum
has exactly the three header variants. -/
inductive UacInterfaceDescriptor where
  | AudioHeader1 : AudioHeader1 → UacInterfaceDescriptor
  | AudioHeader2 : AudioHeader2 → UacInterfaceDescriptor
  | AudioHeader3 : AudioHeader3 → UacInterfaceDescriptor
deriving DecidableEq, Repr

/-- `UacInterfaceDescriptor::from_uac_interface`: only the `Header` interface
kind is dispatched (by protocol version); every other interface kind, and
`Header` under an unknown protocol, is an `Err`. -/
def UacInterfaceDescriptor.from_uac_interface (uac_interface : UacInterface)
    (protocol : UacProtocol) (data : List Nat) : DResult UacInterfaceDescriptor :=
  match uac_interface with
  | UacInterface.Header =>
    match protocol with
    | UacProtocol.Uac1 =>
      dmap UacInterfaceDescriptor.AudioHeader1 (audioHeader1_tryFrom data)
    | UacProtocol.Uac2 =>
      dmap UacInterfaceDescriptor.AudioHeader2 (audioHeader2_tryFrom data)
    | UacProtocol.Uac3 =>
      dmap UacInterfaceDescriptor.AudioHeader3 (audioHeader3_tryFrom data)
    | UacProtocol.Unknown =>
      DResult.fails ErrorKind.InvalidArg "Protocol not supported for this interface"
  | _ =>
    DResult.fails ErrorKind.InvalidArg "Interface not supported for this descriptor"

/-- `ControlSetting` of `descriptors.rs`: decoded 2-bit control value. -/
inductive ControlSetting where
  | ReadOnly
  | IllegalValue
  | ReadWrite
deriving DecidableEq, Repr

/-- `From<u8> for ControlSetting`: `0b01` read-only, `0b10` the illegal
encoding, `0b11` read/write; anything else also maps to `IllegalValue`. -/
def ControlSetting.fromU8 (b : Nat) : ControlSetting :=
  if b = 0b01 then ControlSetting.ReadOnly
  else if b = 0b10 then ControlSetting.IllegalValue
  else if b = 0b11 then ControlSetting.ReadWrite
  else ControlSetting.IllegalValue

/-- `ControlType` of `descriptors.rs`: 1 bit per control (`BmControl1`) or
2 bits per control (`BmControl2`). -/
inductive ControlType where
  | BmControl1
  | BmControl2
deriving DecidableEq, Repr

/-- `UAC1_FEATURE_UNIT_BMCONTROLS` of `audio_dumps.rs`. -/
def UAC1_FEATURE_UNIT_BMCONTROLS : List String :=
  ["Mute", "Volume", "Bass", "Mid", "Treble", "Graphic Equalizer",
   "Automatic Gain", "Delay", "Bass Boost", "Loudness", "Input gain",
   "Input gain pad", "Phase invert"]

/-- `UAC2_SELECTOR_UNIT_BMCONTROLS` of `audio_dumps.rs`. -/
def UAC2_SELECTOR_UNIT_BMCONTROLS : List String := ["Selector"]

/-- The lines printed by `dump_bitmap_controls` of `audio_dumps.rs`, as data:
one entry per printed line, pairing the control label with `none` for the
1-bit-per-control style (printed only when bit `index` is set) and with the
decoded `ControlSetting` for the 2-bit-per-control style (always printed,
from bits `[2 * index, 2 * index + 2)`). -/
def dump_bitmap_controls_model (controls : Nat)
    (control_descriptions : List String) (desc_type : ControlType) :
    List (String × Option ControlSetting) :=
  control_descriptions.enum.filterMap fun ic =>
    match desc_type with
    | ControlType.BmControl1 =>
      if (controls >>> ic.1) &&& 0x1 ≠ 0 then some (ic.2, none) else none
    | ControlType.BmControl2 =>
      some (ic.2, some (ControlSetting.fromU8 ((controls >>> (ic.1 * 2)) &&& 0x3)))

/-! ## Claim theorems -/

/-- C1: the claim says descriptor decoding returns `Ok` or `Err` without
panicking or indexing out of bounds for every input.  The code violates it:
`HidDescriptor::try_from` guards the report loop with
`descriptors_vec.len() < 2` but then reads `descriptors_vec[2]`, so with the
8-byte input `[08 21 00 01 00 01 22 34]` (bNumDescriptors = 1, exactly two
bytes left after the 6-byte prefix) the read is out of bounds and Rust
panics.  The panic is reachable from a generic class descriptor through HID
class-context specialization, as the second conjunct shows. -/
theorem C1_hid_descriptor_panics :
    hidDescriptor_tryFrom [0x08, 0x21, 0x00, 0x01, 0x00, 0x01, 0x22, 0x34] =
      DResult.panics ∧
    dbind (classDescriptor_tryFrom [0x08, 0x21, 0x00, 0x01, 0x00, 0x01, 0x22, 0x34])
      (fun cd => cd.update_with_class_context (ClassCode.HID, 0, 0)) =
      DResult.panics :=
  ⟨rfl, rfl⟩

/-- C2 counterexample: the claim says a 1-byte input with `bLength = 1`
classifies as `Junk`, but `DescriptorType::try_from` checks the 2-byte
minimum before the junk-length check, so the 1-byte input `[01]` is an
`InvalidArg` error, not `Ok(Junk)`. -/
theorem C2_one_byte_input_fails :
    descriptorType_tryFrom [1] =
      DResult.fails ErrorKind.InvalidArg
        "Descriptor type too short, must be at least 2 bytes" ∧
    descriptorType_tryFrom [1] ≠ DResult.ok (DescriptorType.Junk [1]) :=
  ⟨rfl, by decide⟩

/-- C2 as amended: for every input of length at least 2 whose first byte is
below 2, `DescriptorType::try_from` returns `Ok(Junk)` carrying the input
bytes verbatim with no further parsing; a 1-byte input instead fails with
`InvalidArg`, because the 2-byte minimum check precedes the junk check. -/
theorem C2_junk_classification_amended (v : List Nat) (h1 : 2 ≤ v.length)
    (h2 : v.getD 0 0 < 2) :
    descriptorType_tryFrom v = DResult.ok (DescriptorType.Junk v) := by
  unfold descriptorType_tryFrom
  rw [if_neg (Nat.not_lt.mpr h1), if_pos h2]

/-- Witness for `C2_junk_classification_amended` at the 2-byte input
`[01 05]`. -/
theorem C2_junk_classification_amended_witness :
    descriptorType_tryFrom [1, 5] = DResult.ok (DescriptorType.Junk [1, 5]) :=
  C2_junk_classification_amended [1, 5] (by decide) (by decide)

/-- C3: length validation rejects with `InvalidArg` rather than succeeding:
`DescriptorType::try_from` on fewer than 2 bytes; each fixed-type decoder
below its minimum (Interface Association 8, SS Endpoint Companion 6,
Security 5, Encryption 5, HID report 3, class/generic 3, Communication 4,
Video Control 4, MIDI 4, CCID 54, HID 6, Printer 3, Audio Header 1/2 6,
Audio Header 3 7); and `GenericDescriptor::try_from` when the declared
`bLength` exceeds the bytes available. -/
theorem C3_minimum_length_rejection :
    (∀ v : List Nat, v.length < 2 → descriptorType_tryFrom v =
      DResult.fails ErrorKind.InvalidArg
        "Descriptor type too short, must be at least 2 bytes") ∧
    (∀ v : List Nat, v.length < 8 → interfaceAssociationDescriptor_tryFrom v =
      DResult.fails ErrorKind.InvalidArg "Interface Association descriptor too short") ∧
    (∀ v : List Nat, v.length < 6 → ssEndpointCompanionDescriptor_tryFrom v =
      DResult.fails ErrorKind.InvalidArg "SS Endpoint Companion descriptor too short") ∧
    (∀ v : List Nat, v.length < 5 → securityDescriptor_tryFrom v =
      DResult.fails ErrorKind.InvalidArg "Security descriptor too short") ∧
    (∀ v : List Nat, v.length < 5 → encryptionDescriptor_tryFrom v =
      DResult.fails ErrorKind.InvalidArg "Encryption Type descriptor too short") ∧
    (∀ v : List Nat, v.length < 3 → hidReportDescriptor_tryFrom v =
      DResult.fails ErrorKind.InvalidArg "HID report descriptor too short") ∧
    (∀ v : List Nat, v.length < 3 → classDescriptor_tryFrom v =
      DResult.fails ErrorKind.InvalidArg "Class descriptor too short") ∧
    (∀ v : List Nat, v.length < 3 → genericDescriptor_tryFrom v =
      DResult.fails ErrorKind.InvalidArg "Generic descriptor too short") ∧
    (∀ v : List Nat, v.length < 4 → communicationDescriptor_tryFrom v =
      DResult.fails ErrorKind.InvalidArg "Communication descriptor too short") ∧
    (∀ v : List Nat, v.length < 4 → uvcDescriptor_tryFrom v =
      DResult.fails ErrorKind.InvalidArg "Video Control descriptor too short") ∧
    (∀ v : List Nat, v.length < 4 → midiDescriptor_tryFrom v =
      DResult.fails ErrorKind.InvalidArg "MidiDescriptor descriptor too short") ∧
    (∀ v : List Nat, v.length < 54 → ccidDescriptor_tryFrom v =
      DResult.fails ErrorKind.InvalidArg "CCID descriptor too short") ∧
    (∀ v : List Nat, v.length < 6 → hidDescriptor_tryFrom v =
      DResult.fails ErrorKind.InvalidArg "HID descriptor too short") ∧
    (∀ v : List Nat, v.length < 3 → printerDescriptor_tryFrom v =
      DResult.fails ErrorKind.InvalidArg "Printer descriptor too short") ∧
    (∀ v : List Nat, v.length < 6 → audioHeader1_tryFrom v =
      DResult.fails ErrorKind.InvalidArg "Audio Header 1 descriptor too short") ∧
    (∀ v : List Nat, v.length < 6 → audioHeader2_tryFrom v =
      DResult.fails ErrorKind.InvalidArg "Audio Header 2 descriptor too short") ∧
    (∀ v : List Nat, v.length < 7 → audioHeader3_tryFrom v =
      DResult.fails ErrorKind.InvalidArg "Audio Header 3 descriptor too short") ∧
    (∀ v : List Nat, 3 ≤ v.length → v.getD 0 0 > v.length →
      genericDescriptor_tryFrom v =
        DResult.fails ErrorKind.InvalidArg
          "Generic descriptor reported length too long for data returned") := by
  refine ⟨?_, ?_, ?_, ?_, ?_, ?_, ?_, ?_, ?_, ?_, ?_, ?_, ?_, ?_, ?_, ?_, ?_, ?_⟩
  · intro v h; simp [descriptorType_tryFrom, h]
  · intro v h; simp [interfaceAssociationDescriptor_tryFrom, h]
  · intro v h; simp [ssEndpointCompanionDescriptor_tryFrom, h]
  · intro v h; simp [securityDescriptor_tryFrom, h]
  · intro v h; simp [encryptionDescriptor_tryFrom, h]
  · intro v h; simp [hidReportDescriptor_tryFrom, h]
  · intro v h; simp [classDescriptor_tryFrom, h]
  · intro v h; simp [genericDescriptor_tryFrom, h]
  · intro v h; simp [communicationDescriptor_tryFrom, h]
  · intro v h; simp [uvcDescriptor_tryFrom, h]
  · intro v h; simp [midiDescriptor_tryFrom, h]
  · intro v h; simp [ccidDescriptor_tryFrom, h]
  · intro v h; simp [hidDescriptor_tryFrom, h]
  · intro v h; simp [printerDescriptor_tryFrom, h]
  · intro v h; simp [audioHeader1_tryFrom, h]
  · intro v h; simp [audioHeader2_tryFrom, h]
  · intro v h; simp [audioHeader3_tryFrom, h]
  · intro v h1 h2
    unfold genericDescriptor_tryFrom
    rw [if_neg (Nat.not_lt.mpr h1), if_pos h2]

/-- Witness for `C3_minimum_length_rejection`: the 1-byte input for the
type dispatcher, the 3-byte Security descriptor from the spec (needs 5), and a
generic descriptor whose declared `bLength` 9 exceeds its 3 available
bytes. -/
theorem C3_minimum_length_rejection_witness :
    descriptorType_tryFrom [5] =
      DResult.fails ErrorKind.InvalidArg
        "Descriptor type too short, must be at least 2 bytes" ∧
    securityDescriptor_tryFrom [0x0c, 0x03, 0x00] =
      DResult.fails ErrorKind.InvalidArg "Security descriptor too short" ∧
    genericDescriptor_tryFrom [9, 0x24, 0] =
      DResult.fails ErrorKind.InvalidArg
        "Generic descriptor reported length too long for data returned" :=
  ⟨C3_minimum_length_rejection.1 [5] (by decide),
   C3_minimum_length_rejection.2.2.2.1 [0x0c, 0x03, 0x00] (by decide),
   C3_minimum_length_rejection.2.2.2.2.2.2.2.2.2.2.2.2.2.2.2.2.2 [9, 0x24, 0]
     (by decide) (by decide)⟩

/-- C4 counterexample: the claim says subtype byte `0x0a` under protocol
UAC1 (`0x00`) is out of range (undefined), but `get_uac_subtype` falls
through to the `From<u8>` map, which resolves `0x0a` to `ExtensionUnit`,
not `Undefined`. -/
theorem C4_uac1_0x0a_is_extension_unit :
    UacInterface.get_uac_subtype 0x0a 0x00 = UacInterface.ExtensionUnit ∧
    UacInterface.ExtensionUnit ≠ UacInterface.Undefined :=
  ⟨rfl, by decide⟩

/-- C4 as amended: `get_uac_subtype` is a protocol-dependent remap, not an
identity map: `0x04` resolves to `MixerUnit` under both UAC1 (`0x00`) and
UAC2 (`0x20`); `0x0a` under UAC1 falls through to the `From<u8>` table
giving `ExtensionUnit` (not `Undefined`), while under UAC2 it resolves to
`ClockSource`; and `0x08` resolves to `ExtensionUnit` under UAC1 but to
`ProcessingUnit` under UAC2. -/
theorem C4_protocol_dependent_remap_amended :
    UacInterface.get_uac_subtype 0x04 0x00 = UacInterface.MixerUnit ∧
    UacInterface.get_uac_subtype 0x04 0x20 = UacInterface.MixerUnit ∧
    UacInterface.get_uac_subtype 0x0a 0x00 = UacInterface.ExtensionUnit ∧
    UacInterface.get_uac_subtype 0x0a 0x20 = UacInterface.ClockSource ∧
    UacInterface.get_uac_subtype 0x08 0x00 = UacInterface.ExtensionUnit ∧
    UacInterface.get_uac_subtype 0x08 0x20 = UacInterface.ProcessingUnit :=
  ⟨rfl, rfl, rfl, rfl, rfl, rfl⟩

/-- C9: bitmap interpretation is fixed by the declared control type, not the
data: under `BmControl1` the byte `0b00000011` against the UAC1 Feature Unit
table reports exactly Mute and Volume (and, e.g., `0b101` reports exactly
Mute and Bass, bit position selecting the ordinal label); under `BmControl2`
the same byte against the UAC2 Selector table decodes bits `[0, 2)` as
`0b11` = read/write for the single Selector control; and the 2-bit value
`0b10` maps to the flagged `IllegalValue`, with `0b01` read-only and `0b11`
read/write. -/
theorem C9_bitmap_width_semantics :
    dump_bitmap_controls_model 0b00000011 UAC1_FEATURE_UNIT_BMCONTROLS
      ControlType.BmControl1 = [("Mute", none), ("Volume", none)] ∧
    dump_bitmap_controls_model 0b00000101 UAC1_FEATURE_UNIT_BMCONTROLS
      ControlType.BmControl1 = [("Mute", none), ("Bass", none)] ∧
    dump_bitmap_controls_model 0b00000011 UAC2_SELECTOR_UNIT_BMCONTROLS
      ControlType.BmControl2 = [("Selector", some ControlSetting.ReadWrite)] ∧
    ControlSetting.fromU8 0b01 = ControlSetting.ReadOnly ∧
    ControlSetting.fromU8 0b10 = ControlSetting.IllegalValue ∧
    ControlSetting.fromU8 0b11 = ControlSetting.ReadWrite :=
  ⟨rfl, rfl, rfl, rfl, rfl, rfl⟩

/-- The `(class, subclass, protocol)` triplets that hit a specializing arm of
`ClassDescriptor::update_with_class_context`; every other triplet falls to
the `Generic`-tagging catch-all. -/
def tripletInDispatchTable (t : ClassCodeTriplet) : Prop :=
  t.1 = ClassCode.HID ∨ t.1 = ClassCode.SmartCart ∨ t.1 = ClassCode.Printer ∨
    t.1 = ClassCode.CDCCommunications ∨ t.1 = ClassCode.CDCData ∨
    (t.1 = ClassCode.Audio ∧ t.2.1 = 3) ∨ (t.1 = ClassCode.Video ∧ t.2.1 = 1)

instance (t : ClassCodeTriplet) : Decidable (tripletInDispatchTable t) := by
  unfold tripletInDispatchTable
  infer_instance

/-- C5: `update_with_class_context` on a `Generic` descriptor follows the
dispatch table on the class-code triplet: HID specializes to `Hid`,
SmartCard to `Ccid`, Printer to `Printer`, CDC (communications or data) to
`Communication`, (Audio, subclass 3) to `Midi` (carrying the protocol),
(Video, subclass 1) to `Video` (carrying the protocol) — each whenever the
corresponding re-decode of the generic bytes succeeds — and every other
triplet stays `Generic`, now tagged with `Some(triplet)`. -/
theorem C5_class_context_dispatch (ct : Option ClassCodeTriplet)
    (gd : GenericDescriptor) (s p : Nat) :
    (∀ h, hidDescriptor_tryFrom gd.to_vec = DResult.ok h →
      (ClassDescriptor.Generic ct gd).update_with_class_context (ClassCode.HID, s, p) =
        DResult.ok (ClassDescriptor.Hid h)) ∧
    (∀ c, ccidDescriptor_tryFrom gd.to_vec = DResult.ok c →
      (ClassDescriptor.Generic ct gd).update_with_class_context (ClassCode.SmartCart, s, p) =
        DResult.ok (ClassDescriptor.Ccid c)) ∧
    (∀ d, printerDescriptor_tryFrom gd.to_vec = DResult.ok d →
      (ClassDescriptor.Generic ct gd).update_with_class_context (ClassCode.Printer, s, p) =
        DResult.ok (ClassDescriptor.Printer d)) ∧
    (∀ c, communicationDescriptor_tryFrom gd.to_vec = DResult.ok c →
      (ClassDescriptor.Generic ct gd).update_with_class_context
          (ClassCode.CDCCommunications, s, p) =
        DResult.ok (ClassDescriptor.Communication c)) ∧
    (∀ c, communicationDescriptor_tryFrom gd.to_vec = DResult.ok c →
      (ClassDescriptor.Generic ct gd).update_with_class_context (ClassCode.CDCData, s, p) =
        DResult.ok (ClassDescriptor.Communication c)) ∧
    (∀ m, midiDescriptor_tryFrom gd.to_vec = DResult.ok m →
      (ClassDescriptor.Generic ct gd).update_with_class_context (ClassCode.Audio, 3, p) =
        DResult.ok (ClassDescriptor.Midi m p)) ∧
    (∀ u, uvcDescriptor_tryFrom gd.to_vec = DResult.ok u →
      (ClassDescriptor.Generic ct gd).update_with_class_context (ClassCode.Video, 1, p) =
        DResult.ok (ClassDescriptor.Video u p)) ∧
    (∀ t : ClassCodeTriplet, ¬ tripletInDispatchTable t →
      (ClassDescriptor.Generic ct gd).update_with_class_context t =
        DResult.ok (ClassDescriptor.Generic (some t) gd)) := by
  refine ⟨?_, ?_, ?_, ?_, ?_, ?_, ?_, ?_⟩
  · intro h hh
    show dmap ClassDescriptor.Hid (hidDescriptor_tryFrom gd.to_vec) = _
    rw [hh]; rfl
  · intro c hc
    show dmap ClassDescriptor.Ccid (ccidDescriptor_tryFrom gd.to_vec) = _
    rw [hc]; rfl
  · intro d hd
    show dmap ClassDescriptor.Printer (printerDescriptor_tryFrom gd.to_vec) = _
    rw [hd]; rfl
  · intro c hc
    show dmap ClassDescriptor.Communication (communicationDescriptor_tryFrom gd.to_vec) = _
    rw [hc]; rfl
  · intro c hc
    show dmap ClassDescriptor.Communication (communicationDescriptor_tryFrom gd.to_vec) = _
    rw [hc]; rfl
  · intro m hm
    show dmap (fun md => ClassDescriptor.Midi md p) (midiDescriptor_tryFrom gd.to_vec) = _
    rw [hm]; rfl
  · intro u hu
    show dmap (fun vd => ClassDescriptor.Video vd p) (uvcDescriptor_tryFrom gd.to_vec) = _
    rw [hu]; rfl
  · intro t ht
    obtain ⟨c, s2, p2⟩ := t
    simp only [tripletInDispatchTable, not_or] at ht
    cases c <;> simp_all [ClassDescriptor.update_with_class_context]

/-- Witness for `C5_class_context_dispatch`: a well-formed 9-byte HID class
descriptor specializes to `Hid` under the HID triplet, and a Hub-class
triplet leaves a generic descriptor `Generic`, tagged with the triplet. -/
theorem C5_class_context_dispatch_witness :
    (ClassDescriptor.Generic none
        ⟨9, 0x21, 0x11, some [0x01, 0x00, 0x01, 0x22, 0x03, 0x00]⟩).update_with_class_context
      (ClassCode.HID, 0, 0) =
      DResult.ok (ClassDescriptor.Hid
        ⟨9, 0x21, ⟨1, 1, 1⟩, 0, [⟨0x22, 3, some []⟩]⟩) ∧
    (ClassDescriptor.Generic none
        ⟨5, 0x24, 0x01, some [7, 8]⟩).update_with_class_context (ClassCode.Hub, 0, 0) =
      DResult.ok (ClassDescriptor.Generic (some (ClassCode.Hub, 0, 0))
        ⟨5, 0x24, 0x01, some [7, 8]⟩) :=
  ⟨(C5_class_context_dispatch none ⟨9, 0x21, 0x11, some [0x01, 0x00, 0x01, 0x22, 0x03, 0x00]⟩
      0 0).1 ⟨9, 0x21, ⟨1, 1, 1⟩, 0, [⟨0x22, 3, some []⟩]⟩ rfl,
   (C5_class_context_dispatch none ⟨5, 0x24, 0x01, some [7, 8]⟩ 0 0).2.2.2.2.2.2.2
     (ClassCode.Hub, 0, 0) (by decide)⟩

/-- C6: specialization is one-way and re-application is a silent no-op: on
any `ClassDescriptor` not in the `Generic` state, `update_with_class_context`
returns `Ok` with the value completely unchanged (no panic, no reverting, no
re-specialization); likewise `DescriptorType::update_with_class_context`
returns `Ok` unchanged on every variant that carries no `ClassDescriptor`. -/
theorem C6_respecialization_is_noop :
    (∀ (cd : ClassDescriptor) (t : ClassCodeTriplet),
      cd.isGenericState = false → cd.update_with_class_context t = DResult.ok cd) ∧
    (∀ (d : DescriptorType) (t : ClassCodeTriplet),
      d.carriesClass = false → d.update_with_class_context t = DResult.ok d) := by
  constructor
  · intro cd t h
    cases cd <;>
      simp_all [ClassDescriptor.isGenericState, ClassDescriptor.update_with_class_context]
  · intro d t h
    cases d <;>
      simp_all [DescriptorType.carriesClass, DescriptorType.update_with_class_context]

/-- Witness for `C6_respecialization_is_noop`: an already-specialized `Hid`
class descriptor is returned unchanged under a Printer triplet, and the
non-class `Hub` descriptor type is returned unchanged. -/
theorem C6_respecialization_is_noop_witness :
    (ClassDescriptor.Hid ⟨6, 0x21, ⟨1, 0, 0⟩, 0, []⟩).update_with_class_context
      (ClassCode.Printer, 1, 2) =
      DResult.ok (ClassDescriptor.Hid ⟨6, 0x21, ⟨1, 0, 0⟩, 0, []⟩) ∧
    DescriptorType.Hub.update_with_class_context (ClassCode.Vendor, 0, 0) =
      DResult.ok DescriptorType.Hub :=
  ⟨C6_respecialization_is_noop.1 (ClassDescriptor.Hid ⟨6, 0x21, ⟨1, 0, 0⟩, 0, []⟩)
      (ClassCode.Printer, 1, 2) rfl,
   C6_respecialization_is_noop.2 DescriptorType.Hub (ClassCode.Vendor, 0, 0) rfl⟩

/-- Reassembling the first three bytes and the remaining tail of a slice of
length at least 3 gives back the slice. -/
theorem getD_cons3_eq (v : List Nat) (h : 3 ≤ v.length) :
    v.getD 0 0 :: v.getD 1 0 :: v.getD 2 0 :: v.drop 3 = v := by
  rcases v with _ | ⟨a, _ | ⟨b, _ | ⟨c, rest⟩⟩⟩ <;> simp_all

/-- `sliceFrom` at an in-bounds start index. -/
theorem sliceFrom_of_le (v : List Nat) (i : Nat) (h : i ≤ v.length) :
    sliceFrom v i = some (v.drop i) := by
  simp [sliceFrom, h]

/-- C7 counterexample: the claim says every type with both a decoder and an
encoder round-trips on well-formed input, but
`From<PrinterReportDescriptor> for Vec<u8>` emits only the six header bytes
and drops the decoded `data` tail: the 8-byte report
`[00 06 00 00 00 00 AA BB]` (declared length 6 + 2-byte header, no padding)
decodes successfully yet re-encodes to its first six bytes only. -/
theorem C7_printer_report_roundtrip_fails :
    printerReportDescriptor_tryFrom [0x00, 0x06, 0x00, 0x00, 0x00, 0x00, 0xAA, 0xBB] =
      DResult.ok ⟨0x00, 0x06, 0, 0x00, 0x00, none, some [0xAA, 0xBB]⟩ ∧
    printerReportDescriptor_toVec ⟨0x00, 0x06, 0, 0x00, 0x00, none, some [0xAA, 0xBB]⟩ ≠
      [0x00, 0x06, 0x00, 0x00, 0x00, 0x00, 0xAA, 0xBB] :=
  ⟨rfl, by decide⟩

/-- Repacking the BCD fields of `Version.from_bcd` recovers the `u16`. -/
theorem toU16_from_bcd (b : Nat) : (Version.from_bcd b).toU16 = b := by
  show b / 256 * 256 + b / 16 % 16 * 16 + b % 16 = b
  omega

/-- On a list of byte values, `getD` with default 0 stays below 256. -/
theorem getD_lt_256 (v : List Nat) (hby : ∀ b ∈ v, b < 256) (i : Nat) :
    v.getD i 0 < 256 := by
  induction v generalizing i with
  | nil => simp [List.getD]
  | cons a t ih =>
    cases i with
    | zero => simpa using hby a (by simp)
    | succ j => simpa using ih (fun b hb => hby b (by simp [hb])) j

/-- A successfully decoded HID report chunk re-encodes to a list of the same
length as the chunk. -/
theorem hidReport_toVec_length (w : List Nat) (r : HidReportDescriptor)
    (h : hidReportDescriptor_tryFrom w = DResult.ok r) :
    (hidReportDescriptor_toVec r).length = w.length := by
  unfold hidReportDescriptor_tryFrom at h
  by_cases h3 : w.length < 3
  · rw [if_pos h3] at h; exact DResult.noConfusion h
  · rw [if_neg h3] at h
    by_cases h4 : w.getD 0 0 ≠ 0x22
    · rw [if_pos h4] at h; exact DResult.noConfusion h
    · rw [if_neg h4] at h
      injection h with h
      subst h
      unfold hidReportDescriptor_toVec
      rw [sliceFrom_of_le w 3 (by omega)]
      simp [u16ToLe]
      omega

/-- The report loop of `HidDescriptor::try_from` never produces more encoded
report bytes than it consumed from `descriptors_vec`. -/
theorem hidReports_flatten_length (n : Nat) :
    ∀ (dv : List Nat) (acc ds : List HidReportDescriptor),
      hidDescriptorReports n dv acc = DResult.ok ds →
      ((ds.map hidReportDescriptor_toVec).flatten).length ≤
        ((acc.map hidReportDescriptor_toVec).flatten).length + dv.length := by
  induction n with
  | zero =>
    intro dv acc ds h
    injection h with h
    subst h
    exact Nat.le_add_right _ _
  | succ n ih =>
    intro dv acc ds h
    unfold hidDescriptorReports at h
    split at h
    · exact DResult.noConfusion h
    · split at h
      · exact DResult.noConfusion h
      · rename_i b2 heq
        split at h
        · exact DResult.noConfusion h
        · rename_i hlen
          split at h
          · exact DResult.noConfusion h
          · exact DResult.noConfusion h
          · rename_i r hr
            have h1 := hidReport_toVec_length _ _ hr
            have h2 := ih _ _ _ h
            rw [List.length_take] at h1
            rw [List.map_append, List.flatten_append] at h2
            simp only [List.map_cons, List.map_nil, List.flatten_cons, List.flatten_nil,
              List.append_nil, List.length_append, List.length_drop] at h2
            push_neg at hlen
            rw [Nat.min_eq_left hlen] at h1
            omega

/-- C7 as amended: for the types with both a decoder and an encoder, the
encode-after-decode behaviour is:  `GenericDescriptor` and `UvcDescriptor`
reproduce the input bytes unconditionally whenever decode succeeds, and so
does `HidReportDescriptor` on byte-valued input; `CommunicationDescriptor`
and `MidiDescriptor` reproduce the input exactly when the subtype byte
survives the `CdcType` (resp. `MidiInterface`) wire mapping;
`PrinterReportDescriptor` reproduces the input exactly when it is 6 bytes
long (the encoder emits only the six header bytes, dropping any data tail);
`CcidDescriptor` exactly when it is 54 bytes long (the encoder emits exactly
the 54 decoded bytes); and `HidDescriptor` never reproduces the input,
because its encoder omits the `bNumDescriptors` byte. -/
theorem C7_roundtrip_amended :
    (∀ (v : List Nat) (d : GenericDescriptor),
      genericDescriptor_tryFrom v = DResult.ok d → d.to_vec = v) ∧
    (∀ (v : List Nat) (d : UvcDescriptor),
      uvcDescriptor_tryFrom v = DResult.ok d → uvcDescriptor_toVec d = v) ∧
    (∀ (v : List Nat) (d : HidReportDescriptor),
      hidReportDescriptor_tryFrom v = DResult.ok d → (∀ b ∈ v, b < 256) →
      hidReportDescriptor_toVec d = v) ∧
    (∀ (v : List Nat) (d : CommunicationDescriptor),
      communicationDescriptor_tryFrom v = DResult.ok d →
      (communicationDescriptor_toVec d = v ↔
        CdcType.toU8 (CdcType.fromU8 (v.getD 2 0)) = v.getD 2 0)) ∧
    (∀ (v : List Nat) (d : MidiDescriptor),
      midiDescriptor_tryFrom v = DResult.ok d →
      (midiDescriptor_toVec d = v ↔
        MidiInterface.toU8 (MidiInterface.fromU8 (v.getD 2 0)) = v.getD 2 0)) ∧
    (∀ (v : List Nat) (d : PrinterReportDescriptor),
      printerReportDescriptor_tryFrom v = DResult.ok d → (∀ b ∈ v, b < 256) →
      (printerReportDescriptor_toVec d = v ↔ v.length = 6)) ∧
    (∀ (v : List Nat) (d : CcidDescriptor),
      ccidDescriptor_tryFrom v = DResult.ok d → (∀ b ∈ v, b < 256) →
      (ccidDescriptor_toVec d = v ↔ v.length = 54)) ∧
    (∀ (v : List Nat) (d : HidDescriptor),
      hidDescriptor_tryFrom v = DResult.ok d → hidDescriptor_toVec d ≠ v) := by
  refine ⟨?_, ?_, ?_, ?_, ?_, ?_, ?_, ?_⟩
  · intro v d h
    unfold genericDescriptor_tryFrom at h
    by_cases h3 : v.length < 3
    · rw [if_pos h3] at h; exact DResult.noConfusion h
    · rw [if_neg h3] at h
      by_cases h4 : v.getD 0 0 > v.length
      · rw [if_pos h4] at h; exact DResult.noConfusion h
      · rw [if_neg h4] at h
        injection h with h
        subst h
        unfold GenericDescriptor.to_vec
        rw [sliceFrom_of_le v 3 (by omega)]
        exact getD_cons3_eq v (by omega)
  · intro v d h
    unfold uvcDescriptor_tryFrom at h
    by_cases h3 : v.length < 4
    · rw [if_pos h3] at h; exact DResult.noConfusion h
    · rw [if_neg h3] at h
      by_cases h4 : v.getD 0 0 > v.length
      · rw [if_pos h4] at h; exact DResult.noConfusion h
      · rw [if_neg h4] at h
        injection h with h
        subst h
        show v.getD 0 0 :: v.getD 1 0 :: v.getD 2 0 :: v.drop 3 = v
        exact getD_cons3_eq v (by omega)
  · intro v d h hby
    unfold hidReportDescriptor_tryFrom at h
    by_cases h3 : v.length < 3
    · rw [if_pos h3] at h; exact DResult.noConfusion h
    · rw [if_neg h3] at h
      by_cases h4 : v.getD 0 0 ≠ 0x22
      · rw [if_pos h4] at h; exact DResult.noConfusion h
      · rw [if_neg h4] at h
        injection h with h
        subst h
        have b1 := getD_lt_256 v hby 1
        have b2 := getD_lt_256 v hby 2
        unfold hidReportDescriptor_toVec
        rw [sliceFrom_of_le v 3 (by omega)]
        show v.getD 0 0 :: u16ToLe (le16 (v.getD 1 0) (v.getD 2 0)) ++ v.drop 3 = v
        unfold u16ToLe le16
        have e1 : (v.getD 1 0 + 256 * v.getD 2 0) % 256 = v.getD 1 0 := by omega
        have e2 : (v.getD 1 0 + 256 * v.getD 2 0) / 256 % 256 = v.getD 2 0 := by omega
        rw [e1, e2]
        exact getD_cons3_eq v (by omega)
  · intro v d h
    unfold communicationDescriptor_tryFrom at h
    by_cases h3 : v.length < 4
    · rw [if_pos h3] at h; exact DResult.noConfusion h
    · rw [if_neg h3] at h
      by_cases h4 : v.getD 0 0 > v.length
      · rw [if_pos h4] at h; exact DResult.noConfusion h
      · rw [if_neg h4] at h
        injection h with h
        subst h
        have hv3 := getD_cons3_eq v (by omega)
        constructor
        · intro he
          have he2 : v.getD 0 0 :: v.getD 1 0 ::
              CdcType.toU8 (CdcType.fromU8 (v.getD 2 0)) :: v.drop 3 = v := he
          have he3 := he2.trans hv3.symm
          simp only [List.cons.injEq] at he3
          exact he3.2.2.1
        · intro hc
          show v.getD 0 0 :: v.getD 1 0 ::
            CdcType.toU8 (CdcType.fromU8 (v.getD 2 0)) :: v.drop 3 = v
          rw [hc]
          exact hv3
  · intro v d h
    unfold midiDescriptor_tryFrom at h
    by_cases h3 : v.length < 4
    · rw [if_pos h3] at h; exact DResult.noConfusion h
    · rw [if_neg h3] at h
      by_cases h4 : v.getD 0 0 > v.length
      · rw [if_pos h4] at h; exact DResult.noConfusion h
      · rw [if_neg h4] at h
        injection h with h
        subst h
        have hv3 := getD_cons3_eq v (by omega)
        constructor
        · intro he
          have he2 : v.getD 0 0 :: v.getD 1 0 ::
              MidiInterface.toU8 (MidiInterface.fromU8 (v.getD 2 0)) :: v.drop 3 = v := he
          have he3 := he2.trans hv3.symm
          simp only [List.cons.injEq] at he3
          exact he3.2.2.1
        · intro hc
          show v.getD 0 0 :: v.getD 1 0 ::
            MidiInterface.toU8 (MidiInterface.fromU8 (v.getD 2 0)) :: v.drop 3 = v
          rw [hc]
          exact hv3
  · intro v d h hby
    constructor
    · intro he
      rw [← he]
      simp [printerReportDescriptor_toVec, u16ToLe]
    · intro hlen
      rcases v with _ | ⟨a, v⟩
      · simp at hlen
      rcases v with _ | ⟨b, v⟩
      · simp at hlen
      rcases v with _ | ⟨c, v⟩
      · simp at hlen
      rcases v with _ | ⟨d2, v⟩
      · simp at hlen
      rcases v with _ | ⟨e, v⟩
      · simp at hlen
      rcases v with _ | ⟨f, v⟩
      · simp at hlen
      have hv : v = [] := by
        rw [← List.length_eq_zero]
        simp only [List.length_cons] at hlen
        omega
      subst hv
      have hc := hby c (by simp)
      have hd := hby d2 (by simp)
      injection h with h
      subst h
      simp only [printerReportDescriptor_toVec, u16ToLe, le16, List.getD_cons_zero,
        List.getD_cons_succ, List.cons_append, List.nil_append, List.cons.injEq,
        and_true, true_and]
      omega
  · intro v d h hby
    constructor
    · intro he
      rw [← he]
      simp [ccidDescriptor_toVec, u16ToLe, u32ToLe]
    · intro hlen
      rcases v with _ | ⟨y0, v⟩
      · simp at hlen
      rcases v with _ | ⟨y1, v⟩
      · simp at hlen
      rcases v with _ | ⟨y2, v⟩
      · simp at hlen
      rcases v with _ | ⟨y3, v⟩
      · simp at hlen
      rcases v with _ | ⟨y4, v⟩
      · simp at hlen
      rcases v with _ | ⟨y5, v⟩
      · simp at hlen
      rcases v with _ | ⟨y6, v⟩
      · simp at hlen
      rcases v with _ | ⟨y7, v⟩
      · simp at hlen
      rcases v with _ | ⟨y8, v⟩
      · simp at hlen
      rcases v with _ | ⟨y9, v⟩
      · simp at hlen
      rcases v with _ | ⟨y10, v⟩
      · simp at hlen
      rcases v with _ | ⟨y11, v⟩
      · simp at hlen
      rcases v with _ | ⟨y12, v⟩
      · simp at hlen
      rcases v with _ | ⟨y13, v⟩
      · simp at hlen
      rcases v with _ | ⟨y14, v⟩
      · simp at hlen
      rcases v with _ | ⟨y15, v⟩
      · simp at hlen
      rcases v with _ | ⟨y16, v⟩
      · simp at hlen
      rcases v with _ | ⟨y17, v⟩
      · simp at hlen
      rcases v with _ | ⟨y18, v⟩
      · simp at hlen
      rcases v with _ | ⟨y19, v⟩
      · simp at hlen
      rcases v with _ | ⟨y20, v⟩
      · simp at hlen
      rcases v with _ | ⟨y21, v⟩
      · simp at hlen
      rcases v with _ | ⟨y22, v⟩
      · simp at hlen
      rcases v with _ | ⟨y23, v⟩
      · simp at hlen
      rcases v with _ | ⟨y24, v⟩
      · simp at hlen
      rcases v with _ | ⟨y25, v⟩
      · simp at hlen
      rcases v with _ | ⟨y26, v⟩
      · simp at hlen
      rcases v with _ | ⟨y27, v⟩
      · simp at hlen
      rcases v with _ | ⟨y28, v⟩
      · simp at hlen
      rcases v with _ | ⟨y29, v⟩
      · simp at hlen
      rcases v with _ | ⟨y30, v⟩
      · simp at hlen
      rcases v with _ | ⟨y31, v⟩
      · simp at hlen
      rcases v with _ | ⟨y32, v⟩
      · simp at hlen
      rcases v with _ | ⟨y33, v⟩
      · simp at hlen
      rcases v with _ | ⟨y34, v⟩
      · simp at hlen
      rcases v with _ | ⟨y35, v⟩
      · simp at hlen
      rcases v with _ | ⟨y36, v⟩
      · simp at hlen
      rcases v with _ | ⟨y37, v⟩
      · simp at hlen
      rcases v with _ | ⟨y38, v⟩
      · simp at hlen
      rcases v with _ | ⟨y39, v⟩
      · simp at hlen
      rcases v with _ | ⟨y40, v⟩
      · simp at hlen
      rcases v with _ | ⟨y41, v⟩
      · simp at hlen
      rcases v with _ | ⟨y42, v⟩
      · simp at hlen
      rcases v with _ | ⟨y43, v⟩
      · simp at hlen
      rcases v with _ | ⟨y44, v⟩
      · simp at hlen
      rcases v with _ | ⟨y45, v⟩
      · simp at hlen
      rcases v with _ | ⟨y46, v⟩
      · simp at hlen
      rcases v with _ | ⟨y47, v⟩
      · simp at hlen
      rcases v with _ | ⟨y48, v⟩
      · simp at hlen
      rcases v with _ | ⟨y49, v⟩
      · simp at hlen
      rcases v with _ | ⟨y50, v⟩
      · simp at hlen
      rcases v with _ | ⟨y51, v⟩
      · simp at hlen
      rcases v with _ | ⟨y52, v⟩
      · simp at hlen
      rcases v with _ | ⟨y53, v⟩
      · simp at hlen
      have hv : v = [] := by
        rw [← List.length_eq_zero]
        simp only [List.length_cons] at hlen
        omega
      subst hv
      have hy0 := hby y0 (by simp)
      have hy1 := hby y1 (by simp)
      have hy2 := hby y2 (by simp)
      have hy3 := hby y3 (by simp)
      have hy4 := hby y4 (by simp)
      have hy5 := hby y5 (by simp)
      have hy6 := hby y6 (by simp)
      have hy7 := hby y7 (by simp)
      have hy8 := hby y8 (by simp)
      have hy9 := hby y9 (by simp)
      have hy10 := hby y10 (by simp)
      have hy11 := hby y11 (by simp)
      have hy12 := hby y12 (by simp)
      have hy13 := hby y13 (by simp)
      have hy14 := hby y14 (by simp)
      have hy15 := hby y15 (by simp)
      have hy16 := hby y16 (by simp)
      have hy17 := hby y17 (by simp)
      have hy18 := hby y18 (by simp)
      have hy19 := hby y19 (by simp)
      have hy20 := hby y20 (by simp)
      have hy21 := hby y21 (by simp)
      have hy22 := hby y22 (by simp)
      have hy23 := hby y23 (by simp)
      have hy24 := hby y24 (by simp)
      have hy25 := hby y25 (by simp)
      have hy26 := hby y26 (by simp)
      have hy27 := hby y27 (by simp)
      have hy28 := hby y28 (by simp)
      have hy29 := hby y29 (by simp)
      have hy30 := hby y30 (by simp)
      have hy31 := hby y31 (by simp)
      have hy32 := hby y32 (by simp)
      have hy33 := hby y33 (by simp)
      have hy34 := hby y34 (by simp)
      have hy35 := hby y35 (by simp)
      have hy36 := hby y36 (by simp)
      have hy37 := hby y37 (by simp)
      have hy38 := hby y38 (by simp)
      have hy39 := hby y39 (by simp)
      have hy40 := hby y40 (by simp)
      have hy41 := hby y41 (by simp)
      have hy42 := hby y42 (by simp)
      have hy43 := hby y43 (by simp)
      have hy44 := hby y44 (by simp)
      have hy45 := hby y45 (by simp)
      have hy46 := hby y46 (by simp)
      have hy47 := hby y47 (by simp)
      have hy48 := hby y48 (by simp)
      have hy49 := hby y49 (by simp)
      have hy50 := hby y50 (by simp)
      have hy51 := hby y51 (by simp)
      have hy52 := hby y52 (by simp)
      have hy53 := hby y53 (by simp)
      injection h with h
      subst h
      simp only [ccidDescriptor_toVec, u16ToLe, u32ToLe, le16, le32, Version.from_bcd,
        Version.toU16, List.getD_cons_zero, List.getD_cons_succ, List.cons_append,
        List.nil_append, List.cons.injEq, and_true, true_and]
      omega
  · intro v d h
    unfold hidDescriptor_tryFrom at h
    split at h
    · exact DResult.noConfusion h
    · split at h
      · exact DResult.noConfusion h
      · exact DResult.noConfusion h
      · rename_i h6 ds hr
        injection h with h
        subst h
        intro he
        have hle := hidReports_flatten_length (v.getD 5 0) (v.drop 6) [] ds hr
        have hlv : (hidDescriptor_toVec ⟨v.getD 0 0, v.getD 1 0,
            Version.from_bcd (le16 (v.getD 2 0) (v.getD 3 0)), v.getD 4 0, ds⟩).length =
            v.length := by rw [he]
        unfold hidDescriptor_toVec at hlv
        simp only [u16ToLe, List.cons_append, List.nil_append, List.length_cons,
          List.length_append] at hlv
        simp only [List.map_nil, List.flatten_nil, List.length_nil, List.length_drop,
          Nat.zero_add] at hle
        omega

/-- Witness for `C7_roundtrip_amended`: concrete instantiations of every
conjunct: round-trips of a 3-byte generic, a 4-byte UVC, a 3-byte HID
report, a 5-byte CDC descriptor with the recognized Header subtype, a 4-byte
MIDI Header, a 6-byte printer report and an all-zero 54-byte CCID
descriptor, and the round-trip failure of a decoded 9-byte HID
descriptor. -/
theorem C7_roundtrip_amended_witness :
    GenericDescriptor.to_vec ⟨3, 0x24, 0x00, some []⟩ = [3, 0x24, 0x00] ∧
    uvcDescriptor_toVec ⟨4, 0x24, 0x05, none, none, [0]⟩ = [4, 0x24, 0x05, 0] ∧
    hidReportDescriptor_toVec ⟨0x22, 2, some []⟩ = [0x22, 0x02, 0x00] ∧
    communicationDescriptor_toVec ⟨5, 0x24, CdcType.Header, none, none, [7, 8]⟩ =
      [5, 0x24, 0x00, 7, 8] ∧
    midiDescriptor_toVec ⟨4, 0x24, MidiInterface.Header, none, none, [9]⟩ =
      [4, 0x24, 0x01, 9] ∧
    printerReportDescriptor_toVec ⟨0, 4, 513, 3, 4, none, some []⟩ =
      [0, 4, 1, 2, 3, 4] ∧
    ccidDescriptor_toVec
        ⟨0, 0, ⟨0, 0, 0⟩, 0, 0, 0, 0, 0, 0, 0, 0, 0, 0, 0, 0, 0, 0, 0, 0, (0, 0), 0, 0⟩ =
      List.replicate 54 0 ∧
    hidDescriptor_toVec ⟨9, 0x21, ⟨1, 1, 1⟩, 0, [⟨0x22, 3, some []⟩]⟩ ≠
      [0x09, 0x21, 0x11, 0x01, 0x00, 0x01, 0x22, 0x03, 0x00] :=
  ⟨C7_roundtrip_amended.1 [3, 0x24, 0x00] ⟨3, 0x24, 0x00, some []⟩ rfl,
   C7_roundtrip_amended.2.1 [4, 0x24, 0x05, 0] ⟨4, 0x24, 0x05, none, none, [0]⟩ rfl,
   C7_roundtrip_amended.2.2.1 [0x22, 0x02, 0x00] ⟨0x22, 2, some []⟩ rfl (by decide),
   (C7_roundtrip_amended.2.2.2.1 [5, 0x24, 0x00, 7, 8]
       ⟨5, 0x24, CdcType.Header, none, none, [7, 8]⟩ rfl).mpr rfl,
   (C7_roundtrip_amended.2.2.2.2.1 [4, 0x24, 0x01, 9]
       ⟨4, 0x24, MidiInterface.Header, none, none, [9]⟩ rfl).mpr rfl,
   (C7_roundtrip_amended.2.2.2.2.2.1 [0, 4, 1, 2, 3, 4]
       ⟨0, 4, 513, 3, 4, none, some []⟩ rfl (by decide)).mpr rfl,
   (C7_roundtrip_amended.2.2.2.2.2.2.1 (List.replicate 54 0)
       ⟨0, 0, ⟨0, 0, 0⟩, 0, 0, 0, 0, 0, 0, 0, 0, 0, 0, 0, 0, 0, 0, 0, 0, (0, 0), 0, 0⟩
       rfl (by decide)).mpr rfl,
   C7_roundtrip_amended.2.2.2.2.2.2.2
     [0x09, 0x21, 0x11, 0x01, 0x00, 0x01, 0x22, 0x03, 0x00]
     ⟨9, 0x21, ⟨1, 1, 1⟩, 0, [⟨0x22, 3, some []⟩]⟩ rfl⟩

/-- C8 counterexample: the claim says `from_uac_interface` never returns
`Err` merely because the interface kind has no defined entity, but this
version of `UacInterfaceDescriptor` has only the three header variants and
no `Invalid`/`Undefined` variant: a Mixer Unit interface under UAC1 is
rejected with `InvalidArg`, not represented as a data variant. -/
theorem C8_undefined_interface_is_err :
    UacInterfaceDescriptor.from_uac_interface UacInterface.MixerUnit UacProtocol.Uac1 [] =
      DResult.fails ErrorKind.InvalidArg "Interface not supported for this descriptor" :=
  rfl

/-- C8 as amended: `from_uac_interface` supports only the `Header` interface
kind: every other interface kind returns `Err(InvalidArg)` ("Interface not
supported for this descriptor"), `Header` under an unknown protocol returns
`Err(InvalidArg)` ("Protocol not supported for this interface"), and
`Header` under UAC1 decodes through `AudioHeader1` when the header decoder
succeeds; no `Invalid`/`Undefined` data variant exists in this version of
the enum. -/
theorem C8_from_uac_interface_amended :
    (∀ (ui : UacInterface) (protocol : UacProtocol) (data : List Nat),
      ui ≠ UacInterface.Header →
      UacInterfaceDescriptor.from_uac_interface ui protocol data =
        DResult.fails ErrorKind.InvalidArg "Interface not supported for this descriptor") ∧
    (∀ data : List Nat,
      UacInterfaceDescriptor.from_uac_interface UacInterface.Header UacProtocol.Unknown
          data =
        DResult.fails ErrorKind.InvalidArg "Protocol not supported for this interface") ∧
    (∀ (data : List Nat) (h : AudioHeader1),
      audioHeader1_tryFrom data = DResult.ok h →
      UacInterfaceDescriptor.from_uac_interface UacInterface.Header UacProtocol.Uac1
          data =
        DResult.ok (UacInterfaceDescriptor.AudioHeader1 h)) := by
  refine ⟨?_, ?_, ?_⟩
  · intro ui protocol data hne
    cases ui <;> simp_all [UacInterfaceDescriptor.from_uac_interface]
  · intro data; rfl
  · intro data h hh
    show dmap UacInterfaceDescriptor.AudioHeader1 (audioHeader1_tryFrom data) = _
    rw [hh]; rfl

/-- Witness for `C8_from_uac_interface_amended`: a Selector Unit interface
under UAC2 errors, and a concrete 6-byte UAC1 header decodes through
`AudioHeader1`. -/
theorem C8_from_uac_interface_amended_witness :
    UacInterfaceDescriptor.from_uac_interface UacInterface.SelectorUnit UacProtocol.Uac2
        [0] =
      DResult.fails ErrorKind.InvalidArg "Interface not supported for this descriptor" ∧
    UacInterfaceDescriptor.from_uac_interface UacInterface.Header UacProtocol.Uac1
        [0x00, 0x01, 0x1e, 0x00, 0x01, 0x02] =
      DResult.ok (UacInterfaceDescriptor.AudioHeader1 ⟨⟨1, 0, 0⟩, 30, 1, [2]⟩) :=
  ⟨C8_from_uac_interface_amended.1 UacInterface.SelectorUnit UacProtocol.Uac2 [0]
     (by decide),
   C8_from_uac_interface_amended.2.2 [0x00, 0x01, 0x1e, 0x00, 0x01, 0x02]
     ⟨⟨1, 0, 0⟩, 30, 1, [2]⟩ rfl⟩

/-- `HidReportDescriptor::try_from` rejects any (long-enough) input whose
first byte is not `0x22`. -/
theorem hidReport_fails_first_byte (v : List Nat) (h3 : ¬ v.length < 3)
    (hne : v.getD 0 0 ≠ 0x22) :
    hidReportDescriptor_tryFrom v =
      DResult.fails ErrorKind.InvalidArg
        "HID report descriptor must have descriptor type 0x22" := by
  unfold hidReportDescriptor_tryFrom
  rw [if_neg h3, if_pos hne]

/-- Past the length and junk guards, a dispatch byte of `0x22` routes to the
HID report decoder applied to the whole slice. -/
theorem descriptorType_dispatch_report (v : List Nat) (h1 : ¬ v.length < 2)
    (h2 : ¬ v.getD 0 0 < 2) (hb : v.getD 1 0 = 0x22) :
    descriptorType_tryFrom v =
      dmap DescriptorType.Report (hidReportDescriptor_tryFrom v) := by
  unfold descriptorType_tryFrom
  rw [if_neg h1, if_neg h2]
  simp only [hb]
  norm_num

/-- C10: `HidReportDescriptor::try_from` fails with `InvalidArg` whenever
the first byte of its input is not `0x22`, even past the 3-byte minimum;
consequently a top-level descriptor dispatched by `DescriptorType::try_from`
on `bytes[1] = 0x22` (which requires passing the `bLength ≥ 2` junk guard)
can only decode successfully when the declared length byte `bytes[0]` itself
equals `0x22`. -/
theorem C10_report_dispatch_requires_length_0x22 :
    (∀ v : List Nat, 3 ≤ v.length → v.getD 0 0 ≠ 0x22 →
      hidReportDescriptor_tryFrom v =
        DResult.fails ErrorKind.InvalidArg
          "HID report descriptor must have descriptor type 0x22") ∧
    (∀ (v : List Nat) (d : DescriptorType),
      v.getD 1 0 = 0x22 → 2 ≤ v.getD 0 0 →
      descriptorType_tryFrom v = DResult.ok d → v.getD 0 0 = 0x22) := by
  constructor
  · intro v h hne
    exact hidReport_fails_first_byte v (Nat.not_lt.mpr h) hne
  · intro v d h1 h2 h3
    by_cases hl : v.length < 2
    · rw [show descriptorType_tryFrom v =
          DResult.fails ErrorKind.InvalidArg
            "Descriptor type too short, must be at least 2 bytes" by
          unfold descriptorType_tryFrom; rw [if_pos hl]] at h3
      exact DResult.noConfusion h3
    · rw [descriptorType_dispatch_report v hl (Nat.not_lt.mpr h2) h1] at h3
      by_contra hne
      by_cases h5 : v.length < 3
      · rw [show hidReportDescriptor_tryFrom v =
            DResult.fails ErrorKind.InvalidArg "HID report descriptor too short" by
            unfold hidReportDescriptor_tryFrom; rw [if_pos h5]] at h3
        exact DResult.noConfusion h3
      · rw [hidReport_fails_first_byte v h5 hne] at h3
        exact DResult.noConfusion h3

/-- Witness for `C10_report_dispatch_requires_length_0x22`: the 3-byte input
`[05 00 00]` (first byte 5, not `0x22`) is rejected by the HID report
decoder, and the dispatched input `[22 22 00]` (which decodes successfully)
indeed has declared length byte `0x22`. -/
theorem C10_report_dispatch_requires_length_0x22_witness :
    hidReportDescriptor_tryFrom [0x05, 0x00, 0x00] =
      DResult.fails ErrorKind.InvalidArg
        "HID report descriptor must have descriptor type 0x22" ∧
    List.getD [0x22, 0x22, 0x00] 0 0 = 0x22 :=
  ⟨C10_report_dispatch_requires_length_0x22.1 [0x05, 0x00, 0x00] (by decide) (by decide),
   C10_report_dispatch_requires_length_0x22.2 [0x22, 0x22, 0x00]
     (DescriptorType.Report ⟨0x22, 0x22, some []⟩) (by decide) (by decide) rfl⟩

end Cyme
